import Mathlib

/-!
Verification development for the nvidia-persistenced daemon.

The code under `src/` is shallowly embedded here.  Machine integers are
modelled as `Nat`/`Int` with explicit wrap-around (`% 2^32`) where the C
code can overflow.  Kernel-visible effects (ioctl calls, sysfs reads and
writes) are modelled by an explicit `World` state threaded through every
function, together with a static environment (`NumaEnv`, `CfgEnv`) fixing
the outcome of each external operation.  Loops whose C originals may fail
to terminate (the unsigned countdown in `change_numa_node_state`) are
given explicit fuel; exhausting the fuel yields `none`, which is
propagated by every caller and marks divergence of the C program.

Error codes: the C code returns `-errno` from helpers and callers only
inspect the sign, except for `-EEXIST` (17) from the probe write and
`-ENOTSUP` (95), `-ENOENT` (2), `-EINVAL` (22), `-ENOMEM` (12),
`-EFAULT` (14), which appear literally below.  Environment-chosen
failures whose precise errno the callers never inspect are rendered as
`-5` (`-EIO`).
-/

/-- Kernel NUMA status values, `mem_state_t` of nvidia-numa.h. -/
inductive MemState
  | disabled
  | offline
  | onlineInProgress
  | online
  | onlineFailed
  | offlineInProgress
  | offlineFailed
deriving DecidableEq, Repr

/-- Observable external effects, in program order.  Each constructor is one
kernel-facing operation of nvidia-numa.c or one libnvidia-cfg call of
nvidia-persistenced.c. -/
inductive Event
  | openDev (ok : Bool)
  | getInfo (ok : Bool)
  | setStatus (s : MemState) (ok : Bool)
  | nodeDir (ok : Bool)
  | readState (id : Nat)
  | readZones (id : Nat)
  | writeState (id : Nat) (toOnline : Bool)
  | probeWrite (addr : Nat)
  | hardOffline (addr : Nat)
  | closeFd
  | cfgOpen (ok : Bool)
  | cfgClose (ok : Bool)
deriving DecidableEq, Repr

/-- Static outcomes of the kernel-facing operations for one device/node.
`readZonesRes id = some b` models a successful read of the block's
`valid_zones` file whose content begins with `"Movable"` iff `b`
(the C check is `strstr(read_buf, VALID_MOVABLE_STATE) == read_buf`);
`none` is a read failure. -/
structure NumaEnv where
  devFd : Option Nat
  infoOk : Bool
  nid : Int
  memblockSize : Nat
  numaMemAddr : Nat
  numaMemSize : Nat
  offlineAddresses : List Nat
  setStatusOk : MemState → Bool
  nodeDirOk : Bool
  nodeDirEntries : List (Option Nat)
  readStateOk : Nat → Bool
  readZonesRes : Nat → Option Bool
  writeStateRes : Nat → Bool → Int
  probeWriteRes : Nat → Int
  probeAccessOk : Nat → Bool
  hardOfflineOk : Nat → Bool

/-- Mutable kernel-visible state: the driver's NUMA status (as set by the
`set_gpu_numa_status` ioctl), the per-block online bit of each sysfs
`state` file, and the trace of external operations performed so far. -/
structure World where
  driverStatus : MemState
  blockOnline : Nat → Bool
  trace : List Event

/-- Append one observable event. -/
def emit (w : World) (e : Event) : World :=
  { w with trace := w.trace ++ [e] }

def UINT32_MAX : Nat := 4294967295

/-- Modulus of the 32-bit unsigned arithmetic in nvidia-numa.c. -/
def U32MOD : Nat := 4294967296

/-- `NV_IS_ALIGNED(v, gran)` = `0 == (v & (gran - 1))` with `gran - 1`
computed in 64-bit unsigned arithmetic. -/
def nvIsAligned (v gran : Nat) : Bool :=
  Nat.land v ((gran + (2 ^ 64 - 1)) % 2 ^ 64) == 0

/-- `set_gpu_numa_status`: ioctl setting the driver NUMA status; on success
the driver status changes, on failure it does not. -/
def set_gpu_numa_status (env : NumaEnv) (s : MemState) (w : World) :
    Int × World :=
  let ok := env.setStatusOk s
  let w' := emit w (.setStatus s ok)
  if ok then (0, { w' with driverStatus := s }) else (-5, w')

/-- `change_memblock_state`: read the block's sysfs `state` file, and when
the current state differs from the requested one write `online_movable`
or `offline` to it.  Target states other than online/offline return
`-EINVAL` without any write. -/
def change_memblock_state (env : NumaEnv) (id : Nat) (new_state : MemState)
    (w : World) : Int × World :=
  let w1 := emit w (.readState id)
  if env.readStateOk id then
    let cur : MemState := if w.blockOnline id then .online else .offline
    if cur = new_state then (0, w1)
    else
      match new_state with
      | .online =>
          let w2 := emit w1 (.writeState id true)
          let res := env.writeStateRes id true
          if res = 0 then
            (0, { w2 with blockOnline := fun b => if b = id then true else w2.blockOnline b })
          else (res, w2)
      | .offline =>
          let w2 := emit w1 (.writeState id false)
          let res := env.writeStateRes id false
          if res = 0 then
            (0, { w2 with blockOnline := fun b => if b = id then false else w2.blockOnline b })
          else (res, w2)
      | _ => (-22, w1)
  else (-5, w1)

/-- Directory scan of `gather_memblock_ids_for_node`: fold over the parsed
`memory<N>` entries keeping the min and max id.  The first component is
true when a parsed id 0 was encountered, which makes the C code jump to
`cleanup` at once (leaving `status` at 0 and the out-parameters
unwritten). -/
def gather_scan : List (Option Nat) → Nat → Nat → Bool × Nat × Nat
  | [], s, e => (false, s, e)
  | none :: rest, s, e => gather_scan rest s e
  | some 0 :: _, s, e => (true, s, e)
  | some id :: rest, s, e => gather_scan rest (min s id) (max e id)

/-- `gather_memblock_ids_for_node`: list the node directory and return the
least and greatest parsed block id.  Mirrors the source exactly: a parsed
id 0 aborts the scan with status 0 and no ids written; an empty scan
(start still `UINT32_MAX`) is `-ENOENT`. -/
def gather_memblock_ids_for_node (env : NumaEnv) (w : World) :
    Int × Option (Nat × Nat) × World :=
  let w1 := emit w (.nodeDir env.nodeDirOk)
  if env.nodeDirOk then
    let g := gather_scan env.nodeDirEntries UINT32_MAX 0
    if g.1 then (0, none, w1)
    else if g.2.1 = UINT32_MAX then (-2, none, w1)
    else (0, some (g.2.1, g.2.2), w1)
  else (-5, none, w1)

/-- Descending online loop of `change_numa_node_state`:
`for (id = end; id >= start; id--)` on a `uint32_t`, so decrementing 0
wraps to `UINT32_MAX` and with `start = 0` the loop never exits.  Fuel
exhaustion (`none`) marks that divergence.  Accumulates the last failing
status (`err_status`) and the count of blocks changed. -/
def descendLoop (env : NumaEnv) : Nat → Nat → Nat → Int → Nat → World →
    Option (Int × Nat × World)
  | 0, _, _, _, _, _ => none
  | fuel + 1, id, start, errAcc, changed, w =>
      if start ≤ id then
        let r := change_memblock_state env id .online w
        descendLoop env fuel ((id + (U32MOD - 1)) % U32MOD) start
          (if r.1 = 0 then errAcc else r.1)
          (if r.1 = 0 then changed + 1 else changed) r.2
      else
        some (errAcc, changed, w)

/-- Ascending offline loop of `change_numa_node_state`:
`for (id = start; id <= end; id++)` on a `uint32_t`; incrementing past
`UINT32_MAX` wraps to 0, so with `end = UINT32_MAX` the loop never exits
(fuel exhaustion, `none`). -/
def ascendLoop (env : NumaEnv) : Nat → Nat → Nat → Int → Nat → World →
    Option (Int × Nat × World)
  | 0, _, _, _, _, _ => none
  | fuel + 1, id, endId, errAcc, changed, w =>
      if id ≤ endId then
        let r := change_memblock_state env id .offline w
        ascendLoop env fuel ((id + 1) % U32MOD) endId
          (if r.1 = 0 then errAcc else r.1)
          (if r.1 = 0 then changed + 1 else changed) r.2
      else
        some (errAcc, changed, w)

/-- `change_numa_node_state`: gather the node's block id range, walk it
descending (online) or ascending (offline), and require the changed
blocks to cover the region.  The shortfall branch returns `err_status`,
which is still 0 when every attempted write succeeded; only afterwards is
`blocks_changed == 0` turned into `-ENOMEM`. -/
def change_numa_node_state (env : NumaEnv) (region_gpu_size memblock_size : Nat)
    (new_state : MemState) (w : World) : Option (Int × World) :=
  let g := gather_memblock_ids_for_node env w
  let w1 := g.2.2
  if g.1 < 0 then some (g.1, w1)
  else
    let ids := g.2.1.getD (0, 0)
    let startId := ids.1
    let endId := ids.2
    if endId < startId then some (-22, w1)
    else
      let pass : Option (Int × Nat × World) :=
        if new_state = .online then
          descendLoop env (endId + 2) endId startId 0 0 w1
        else if new_state = .offline then
          ascendLoop env (endId + 2 - startId) startId endId 0 0 w1
        else some (0, 0, w1)
      match pass with
      | none => none
      | some r =>
          if r.2.1 * memblock_size < region_gpu_size then some (r.1, r.2.2)
          else if r.2.1 = 0 then some (-12, r.2.2)
          else some (0, r.2.2)

/-- `offline_blacklisted_pages`: write each driver-blacklisted address to
the page-retirement control file, stopping at the first failure. -/
def offline_blacklisted_pages (env : NumaEnv) : List Nat → World → Int × World
  | [], w => (0, w)
  | a :: rest, w =>
      let w1 := emit w (.hardOffline a)
      if env.hardOfflineOk a then offline_blacklisted_pages env rest w1
      else (-5, w1)

/-- Probe loop of `probe_node_memory`: write each memblock-aligned span
start to the probe file, then verify via `access` that the memory node
directory appeared; `-EEXIST` from the write is tolerated. -/
def probeLoop (env : NumaEnv) : Nat → Nat → Nat → Nat → World →
    Option (Int × World)
  | 0, _, _, _, _ => none
  | fuel + 1, start, endAddr, bsz, w =>
      if start + bsz ≤ endAddr then
        let w1 := emit w (.probeWrite start)
        let st := env.probeWriteRes start
        let num := start / bsz
        if ¬ env.probeAccessOk num then some (-5, w1)
        else if st = -17 then probeLoop env fuel (start + bsz) endAddr bsz w1
        else if st < 0 then some (st, w1)
        else probeLoop env fuel (start + bsz) endAddr bsz w1
      else some (0, w)

/-- `probe_node_memory`: check alignment of both region ends, then probe
every memblock-sized span of the region. -/
def probe_node_memory (env : NumaEnv) (base size bsz : Nat) (w : World) :
    Option (Int × World) :=
  if ¬ nvIsAligned base bsz ∨ ¬ nvIsAligned (base + size) bsz then
    some (-14, w)
  else probeLoop env (size / bsz + 1) base (base + size) bsz w

/-- Scan of `check_memory_auto_online` over the node directory entries.
Returns `(status, nodes seen, nodes online-and-movable, cleanup, w)`;
`cleanup = true` models `goto cleanup` on a read failure (the post-loop
checks are skipped), while the `-ENOTSUP` case uses `break` and falls
through to the post-loop checks. -/
def autoScan (env : NumaEnv) : List (Option Nat) → Nat → Nat → World →
    Int × Nat × Nat × Bool × World
  | [], ndir, nmv, w => (0, ndir, nmv, false, w)
  | none :: rest, ndir, nmv, w => autoScan env rest ndir nmv w
  | some id :: rest, ndir, nmv, w =>
      let w1 := emit w (.readState id)
      if env.readStateOk id then
        if w.blockOnline id then
          let w2 := emit w1 (.readZones id)
          match env.readZonesRes id with
          | none => (-5, ndir + 1, nmv, true, w2)
          | some movableFirst =>
              if movableFirst then autoScan env rest (ndir + 1) (nmv + 1) w2
              else (-95, ndir + 1, nmv, false, w2)
        else autoScan env rest (ndir + 1) nmv w1
      else (-5, ndir + 1, nmv, true, w1)

/-- `check_memory_auto_online`: decide whether every block of the node is
already online in a movable-first zone.  A block online in a
non-movable-first zone yields `-ENOTSUP`; an empty directory `-ENOENT`;
the out-parameter is true iff all seen blocks were online and movable. -/
def check_memory_auto_online (env : NumaEnv) (w : World) :
    Int × Bool × World :=
  if env.nodeDirOk then
    if (autoScan env env.nodeDirEntries 0 0
          (emit w (.nodeDir env.nodeDirOk))).2.2.2.1 then
      ((autoScan env env.nodeDirEntries 0 0
          (emit w (.nodeDir env.nodeDirOk))).1, false,
       (autoScan env env.nodeDirEntries 0 0
          (emit w (.nodeDir env.nodeDirOk))).2.2.2.2)
    else if (autoScan env env.nodeDirEntries 0 0
          (emit w (.nodeDir env.nodeDirOk))).2.1 = 0 then
      (-2, false,
       (autoScan env env.nodeDirEntries 0 0
          (emit w (.nodeDir env.nodeDirOk))).2.2.2.2)
    else
      ((autoScan env env.nodeDirEntries 0 0
          (emit w (.nodeDir env.nodeDirOk))).1,
       decide ((autoScan env env.nodeDirEntries 0 0
            (emit w (.nodeDir env.nodeDirOk))).2.2.1
          = (autoScan env env.nodeDirEntries 0 0
              (emit w (.nodeDir env.nodeDirOk))).2.1),
       (autoScan env env.nodeDirEntries 0 0
          (emit w (.nodeDir env.nodeDirOk))).2.2.2.2)
  else (-5, false, emit w (.nodeDir env.nodeDirOk))

/-- `offline_memory`: query the driver status, reject nothing but
`OFFLINE_IN_PROGRESS` (which returns the still-zero status), move the
driver to `OFFLINE_IN_PROGRESS`, offline the node's blocks ascending, and
on success record `OFFLINE`; a failed block pass records `OFFLINE_FAILED`
best-effort and returns the pass's error. -/
def offline_memory (env : NumaEnv) (w : World) : Option (Int × World) :=
  let w0 := emit w (.getInfo env.infoOk)
  if ¬ env.infoOk then some (-5, w0)
  else
    match w0.driverStatus with
    | .disabled => some (0, w0)
    | .offline => some (0, w0)
    | .offlineInProgress => some (0, w0)
    | _ =>
      let r1 := set_gpu_numa_status env .offlineInProgress w0
      if r1.1 < 0 then some (r1.1, r1.2)
      else
        match change_numa_node_state env env.numaMemSize env.memblockSize .offline r1.2 with
        | none => none
        | some r2 =>
          if r2.1 < 0 then
            some (r2.1, (set_gpu_numa_status env .offlineFailed r2.2).2)
          else
            let r3 := set_gpu_numa_status env .offline r2.2
            if r3.1 < 0 then some (r3.1, r3.2) else some (0, r3.2)

/-- Daemon-level status codes, `NvPdStatus` of the RPC layer. -/
inductive NvPdStatus
  | success
  | errDeviceNotFound
  | errInvalidArgument
  | errDriver
  | errNumaFailure
  | errIo
  | errUnknown
deriving DecidableEq, Repr

/-- Per-device NUMA bookkeeping, `NvNumaDevice` (the stored descriptor). -/
structure NvNumaDevice where
  fd : Int
deriving DecidableEq, Repr

/-- `error:` label of `nvNumaOnlineMemory`: set `ONLINE_FAILED`
best-effort, close the locally opened descriptor, and report
`NVPD_ERR_NUMA_FAILURE`. -/
def online_error_path (env : NumaEnv) (w : World) : NvPdStatus × World :=
  (.errNumaFailure, emit (set_gpu_numa_status env .onlineFailed w).2 .closeFd)

/-- `online_failed:` label of `nvNumaOnlineMemory`: run the offline
rollback best-effort (its status is discarded) and fall through to the
`error:` label. -/
def online_failed_path (env : NumaEnv) (w : World) :
    Option (NvPdStatus × World) :=
  match offline_memory env w with
  | none => none
  | some r => some (online_error_path env r.2)

/-- Tail of the online sequence after the blacklisted-page retirement
(`rb` its status and world): a retirement failure rolls back; otherwise
the driver status is set to `ONLINE` (step 11), whose own failure also
rolls back. -/
def online_after_blacklist (env : NumaEnv) (rb : Int × World) :
    Option (NvPdStatus × World) :=
  if rb.1 < 0 then online_failed_path env rb.2
  else
    let ro := set_gpu_numa_status env .online rb.2
    if ro.1 < 0 then online_failed_path env ro.2
    else some (.success, ro.2)

/-- Tail of the online sequence after the explicit block-change pass (or
its auto-online skip): a block-change failure rolls back; otherwise the
blacklisted pages are retired (step 10). -/
def online_after_change (env : NumaEnv) (rn : Int × World) :
    Option (NvPdStatus × World) :=
  if rn.1 < 0 then online_failed_path env rn.2
  else online_after_blacklist env
    (offline_blacklisted_pages env env.offlineAddresses rn.2)

/-- Tail of the online sequence after the auto-online check (`rc` its
status, flag and world): a check failure (including `-ENOTSUP`) jumps to
`error:` with no rollback; an auto-onlined node skips the explicit
block-change pass (steps 8-9), otherwise the pass runs. -/
def online_after_check (env : NumaEnv) (rc : Int × Bool × World) :
    Option (NvPdStatus × World) :=
  if rc.1 < 0 then some (online_error_path env rc.2.2)
  else
    let afterChange : Option (Int × World) :=
      if rc.2.1 then some (0, rc.2.2)
      else change_numa_node_state env env.numaMemSize env.memblockSize .online rc.2.2
    match afterChange with
    | none => none
    | some rn => online_after_change env rn

/-- Tail of the online sequence after the probe (step 6): a probe failure
rolls back; otherwise the auto-online check runs (step 7). -/
def online_after_probe (env : NumaEnv) (rp : Int × World) :
    Option (NvPdStatus × World) :=
  if rp.1 < 0 then online_failed_path env rp.2
  else online_after_check env (check_memory_auto_online env rp.2)

/-- Body of the online sequence after the driver status was moved to
`ONLINE_IN_PROGRESS` (steps 5-11 of the spec): alignment check, probe,
auto-online check, explicit block onlining, blacklisted-page retirement,
and the final `ONLINE` status write.  Alignment and auto-online-check
failures jump to `error:` (no rollback); probe, block-change, blacklist
and final-status failures jump to `online_failed:` (rollback first). -/
def online_sequence_body (env : NumaEnv) (w : World) :
    Option (NvPdStatus × World) :=
  if ¬ nvIsAligned env.numaMemAddr env.memblockSize ∨
     ¬ nvIsAligned env.numaMemSize env.memblockSize then
    some (online_error_path env w)
  else
    match probe_node_memory env env.numaMemAddr env.numaMemSize env.memblockSize w with
    | none => none
    | some rp => online_after_probe env rp

/-- `nvNumaOnlineMemory`: open the device file, query NUMA info, validate
the starting status and geometry, set `ONLINE_IN_PROGRESS` and run the
online body.  Only the success paths store the opened descriptor in the
device record (`numa_info->fd = fd` at the `done:` label). -/
def nvNumaOnlineMemory (env : NumaEnv) (d : NvNumaDevice) (w : World) :
    Option (NvPdStatus × NvNumaDevice × World) :=
  let w0 := emit w (.openDev env.devFd.isSome)
  match env.devFd with
  | none => some (.errNumaFailure, d, w0)
  | some fd =>
    let w1 := emit w0 (.getInfo env.infoOk)
    if ¬ env.infoOk then some (.errNumaFailure, d, emit w1 .closeFd)
    else
      match w1.driverStatus with
      | .disabled => some (.success, { d with fd := (fd : Int) }, w1)
      | .online => some (.success, { d with fd := (fd : Int) }, w1)
      | .onlineInProgress => some (.errNumaFailure, d, emit w1 .closeFd)
      | .offlineInProgress => some (.errNumaFailure, d, emit w1 .closeFd)
      | _ =>
        if env.nid < 0 ∨ env.memblockSize = 0 ∨ env.numaMemAddr = 0 ∨
           env.numaMemSize = 0 then
          some (.errNumaFailure, d, emit w1 .closeFd)
        else
          let rs := set_gpu_numa_status env .onlineInProgress w1
          if rs.1 < 0 then some (.errNumaFailure, d, emit rs.2 .closeFd)
          else
            match online_sequence_body env rs.2 with
            | none => none
            | some rb =>
                if rb.1 = .success then
                  some (.success, { d with fd := (fd : Int) }, rb.2)
                else some (rb.1, d, rb.2)

/-- `nvNumaOfflineMemory`: refuse a device without a stored descriptor,
run `offline_memory`, and only on success close the descriptor and reset
the stored fd to -1. -/
def nvNumaOfflineMemory (env : NumaEnv) (d : NvNumaDevice) (w : World) :
    Option (NvPdStatus × NvNumaDevice × World) :=
  if d.fd < 0 then some (.errNumaFailure, d, w)
  else
    match offline_memory env w with
    | none => none
    | some r =>
      if r.1 < 0 then some (.errNumaFailure, d, r.2)
      else some (.success, { d with fd := -1 }, emit r.2 .closeFd)

/-- `NvPersistenceMode` of the RPC layer. -/
inductive NvPersistenceMode
  | disabled
  | enabled
deriving DecidableEq, Repr

/-- Daemon-level NUMA status, `NvNumaStatus` of the RPC layer. -/
inductive NvNumaStatus
  | offline
  | online
deriving DecidableEq, Repr

/-- Per-device daemon state, `NvPdDevice` of nvidia-persistenced.c.
`handle` models whether `nv_cfg_handle` is non-NULL; `fd` is the stored
`numa_info.fd`. -/
structure NvPdDevice where
  domain : Int
  bus : Int
  slot : Int
  handle : Bool
  mode : NvPersistenceMode
  numa_status : NvNumaStatus
  fd : Int
deriving DecidableEq, Repr

/-- Outcomes of the two libnvidia-cfg capability calls. -/
structure CfgEnv where
  openOk : Bool
  closeOk : Bool

/-- `set_device_mode`: no-op success when the device already has the
requested mode; otherwise close (disable) or open (enable) the device via
libnvidia-cfg, and commit the new mode only on success. -/
def set_device_mode (cenv : CfgEnv) (d : NvPdDevice) (mode : NvPersistenceMode)
    (w : World) : NvPdStatus × NvPdDevice × World :=
  if mode = d.mode then (.success, d, w)
  else
    match mode with
    | .disabled =>
        let w1 := emit w (.cfgClose cenv.closeOk)
        if cenv.closeOk then
          (.success, { d with handle := false, mode := .disabled }, w1)
        else (.errDriver, d, w1)
    | .enabled =>
        let w1 := emit w (.cfgOpen cenv.openOk)
        if cenv.openOk then
          (.success, { d with handle := true, mode := .enabled }, w1)
        else (.errDriver, d, w1)

/-- `set_device_numa_status`: no-op success when the device is already in
the requested NUMA state; otherwise run the nvidia-numa offline or online
sequence and commit the new status only on success.  The stored fd tracks
the embedded `NvNumaDevice`. -/
def set_device_numa_status (nenv : NumaEnv) (d : NvPdDevice)
    (numa_status : NvNumaStatus) (w : World) :
    Option (NvPdStatus × NvPdDevice × World) :=
  if numa_status = d.numa_status then some (.success, d, w)
  else
    let run : Option (NvPdStatus × NvNumaDevice × World) :=
      match numa_status with
      | .offline => nvNumaOfflineMemory nenv { fd := d.fd } w
      | .online => nvNumaOnlineMemory nenv { fd := d.fd } w
    match run with
    | none => none
    | some r =>
        let d1 := { d with fd := r.2.1.fd }
        if r.1 = .success then
          some (.success, { d1 with numa_status := numa_status }, r.2.2)
        else some (r.1, d1, r.2.2)

/-- Mode-to-NUMA derivation of `nvPdSetDevicePersistenceMode`:
Enabled maps to Online and Disabled to Offline. -/
def derivedNumaTarget (mode : NvPersistenceMode) : NvNumaStatus :=
  if mode = .enabled then .online else .offline

/-- Device-level body of `nvPdSetDevicePersistenceMode` (lines 110-129 of
nvidia-persistenced.c): set the device mode first, then the derived NUMA
status; when the NUMA step fails after an actual mode change, restore the
old mode best-effort (the rollback status is discarded) and return the
NUMA error. -/
def setPersistenceModeDevice (cenv : CfgEnv) (nenv : NumaEnv)
    (d : NvPdDevice) (mode : NvPersistenceMode) (w : World) :
    Option (NvPdStatus × NvPdDevice × World) :=
  let old_mode := d.mode
  let r1 := set_device_mode cenv d mode w
  if r1.1 = .success then
    match set_device_numa_status nenv r1.2.1 (derivedNumaTarget mode) r1.2.2 with
    | none => none
    | some r2 =>
      if r2.1 ≠ .success ∧ old_mode ≠ mode then
        let r3 := set_device_mode cenv r2.2.1 old_mode r2.2.2
        some (r2.1, r3.2.1, r3.2.2)
      else some r2
  else some r1

/-- `get_device`: linear scan of the registry for the first device at the
given PCI (domain, bus, slot). -/
def get_device : List NvPdDevice → Int → Int → Int → Option NvPdDevice
  | [], _, _, _ => none
  | d :: rest, domain, bus, slot =>
      if d.domain = domain ∧ d.bus = bus ∧ d.slot = slot then some d
      else get_device rest domain bus slot

/-- Write-back of an in-place mutation through the `get_device` pointer:
replace the first registry entry at the given PCI location. -/
def replaceFirst : List NvPdDevice → Int → Int → Int → NvPdDevice →
    List NvPdDevice
  | [], _, _, _, _ => []
  | d :: rest, domain, bus, slot, d' =>
      if d.domain = domain ∧ d.bus = bus ∧ d.slot = slot then d' :: rest
      else d :: replaceFirst rest domain bus slot d'

/-- `nvPdSetDevicePersistenceMode`: registry lookup plus the combined
mode-and-NUMA transition with attachment rollback. -/
def nvPdSetDevicePersistenceMode (cenv : CfgEnv) (nenv : NumaEnv)
    (devs : List NvPdDevice) (domain bus slot _function : Int)
    (mode : NvPersistenceMode) (w : World) :
    Option (NvPdStatus × List NvPdDevice × World) :=
  match get_device devs domain bus slot with
  | none => some (.errDeviceNotFound, devs, w)
  | some d =>
    match setPersistenceModeDevice cenv nenv d mode w with
    | none => none
    | some r => some (r.1, replaceFirst devs domain bus slot r.2.1, r.2.2)

/-- `nvPdSetDevicePersistenceModeOnly`: registry lookup plus the
attachment transition only; the NUMA status is untouched. -/
def nvPdSetDevicePersistenceModeOnly (cenv : CfgEnv)
    (devs : List NvPdDevice) (domain bus slot _function : Int)
    (mode : NvPersistenceMode) (w : World) :
    NvPdStatus × List NvPdDevice × World :=
  match get_device devs domain bus slot with
  | none => (.errDeviceNotFound, devs, w)
  | some d =>
    let r := set_device_mode cenv d mode w
    (r.1, replaceFirst devs domain bus slot r.2.1, r.2.2)

/-- `nvPdSetDeviceNumaStatus`: registry lookup plus the NUMA transition
only; the persistence mode is untouched. -/
def nvPdSetDeviceNumaStatus (nenv : NumaEnv) (devs : List NvPdDevice)
    (domain bus slot _function : Int) (status : NvNumaStatus) (w : World) :
    Option (NvPdStatus × List NvPdDevice × World) :=
  match get_device devs domain bus slot with
  | none => some (.errDeviceNotFound, devs, w)
  | some d =>
    match set_device_numa_status nenv d status w with
    | none => none
    | some r => some (r.1, replaceFirst devs domain bus slot r.2.1, r.2.2)

/-- `nvPdGetDevicePersistenceMode`: registry lookup returning the stored
mode; no state is mutated. -/
def nvPdGetDevicePersistenceMode (devs : List NvPdDevice)
    (domain bus slot _function : Int) (w : World) :
    NvPdStatus × Option NvPersistenceMode × List NvPdDevice × World :=
  match get_device devs domain bus slot with
  | none => (.errDeviceNotFound, none, devs, w)
  | some d => (.success, some d.mode, devs, w)

/-- Block ids read (the `state`-file read attempted at the head of every
loop iteration of `change_memblock_state`), in trace order. -/
def readIds (tr : List Event) : List Nat :=
  tr.filterMap fun e =>
    match e with
    | .readState i => some i
    | _ => none

/-- Block-state writes (id, toOnline) in trace order. -/
def writeIds (tr : List Event) : List (Nat × Bool) :=
  tr.filterMap fun e =>
    match e with
    | .writeState i b => some (i, b)
    | _ => none

/-- Count of NUMA-info ioctl queries in a trace.  `offline_memory` always
begins with one, so a second query after `nvNumaOnlineMemory`'s own marks
the offline rollback having been entered. -/
def countGetInfo (tr : List Event) : Nat :=
  tr.countP fun e =>
    match e with
    | .getInfo _ => true
    | _ => false

/-- Device-descriptor closes in a trace. -/
def countCloseFd (tr : List Event) : Nat :=
  tr.countP fun e =>
    match e with
    | .closeFd => true
    | _ => false

/-- Whether a trace records an attempt (successful or not) to move the
driver status to `s`. -/
def hasSetStatus (tr : List Event) (s : MemState) : Bool :=
  tr.any fun e =>
    match e with
    | .setStatus s' _ => s' = s
    | _ => false

/-- Reference list `endId, endId-1, ..., start` for the descending online
walk. -/
def descIds (start endId : Nat) : List Nat :=
  (List.range' start (endId + 1 - start)).reverse

/-- Reference list `start, start+1, ..., endId` for the ascending offline
walk. -/
def ascIds (start endId : Nat) : List Nat :=
  List.range' start (endId + 1 - start)

/-- Registry invariant of §3 of the spec: a device whose NUMA status is
Online has persistence mode Enabled. -/
def registryInv (devs : List NvPdDevice) : Prop :=
  ∀ d ∈ devs, d.numa_status = .online → d.mode = .enabled

instance : DecidablePred registryInv := fun devs =>
  inferInstanceAs (Decidable (∀ d ∈ devs, d.numa_status = .online → d.mode = .enabled))

/-- Initial kernel world used by the concrete scenarios: driver status
Offline, every memory block offline, empty trace. -/
def w0 : World :=
  { driverStatus := .offline, blockOnline := fun _ => false, trace := [] }

/-- Fully cooperative kernel environment: device file opens as fd 3, node
0 exposes blocks 16-19 (256 MiB-style region of four 64-unit blocks at
base 1024), and every kernel operation succeeds. -/
def baseEnv : NumaEnv :=
  { devFd := some 3
    infoOk := true
    nid := 0
    memblockSize := 64
    numaMemAddr := 1024
    numaMemSize := 256
    offlineAddresses := []
    setStatusOk := fun _ => true
    nodeDirOk := true
    nodeDirEntries := [some 16, some 17, some 18, some 19]
    readStateOk := fun _ => true
    readZonesRes := fun _ => some true
    writeStateRes := fun _ _ => 0
    probeWriteRes := fun _ => 0
    probeAccessOk := fun _ => true
    hardOfflineOk := fun _ => true }

/-- Straight-line reference form of the block-change loops of
`change_numa_node_state`: visit the given block ids in list order,
accumulating the last failing status and the count of changed blocks. -/
def runBlocks (env : NumaEnv) (new_state : MemState) :
    List Nat → Int → Nat → World → Int × Nat × World
  | [], errAcc, changed, w => (errAcc, changed, w)
  | id :: rest, errAcc, changed, w =>
      let r := change_memblock_state env id new_state w
      runBlocks env new_state rest (if r.1 = 0 then errAcc else r.1)
        (if r.1 = 0 then changed + 1 else changed) r.2

/-- Bad-block predicate for the auto-online check: a directory entry that
is a memory node whose block is online while its `valid_zones` content
does not begin with `Movable`. -/
def isBadBlock (env : NumaEnv) (w : World) : Option Nat → Bool
  | none => false
  | some id => w.blockOnline id && (env.readZonesRes id == some false)

/-- Environment whose NUMA base address 1000 is not aligned to the
memblock size 64 (used for the online alignment-failure scenarios). -/
def envC2mis : NumaEnv :=
  { baseEnv with numaMemAddr := 1000 }

/-- Environment whose node directory exposes a single block `memory5`
while the region needs two blocks of size 64. -/
def envC3 : NumaEnv :=
  { baseEnv with nodeDirEntries := [some 5] }

/-- Environment whose node directory exposes blocks `memory1`-`memory4`,
the four-contiguous-block scenario of the spec. -/
def envC5 : NumaEnv :=
  { baseEnv with nodeDirEntries := [some 1, some 2, some 3, some 4] }

/-- Environment whose node directory exposes a single block `memory7`
while the region needs four blocks of size 64. -/
def envC6 : NumaEnv :=
  { baseEnv with nodeDirEntries := [some 7] }

/-- Like `envC6` but every sysfs block-state write fails. -/
def envC6w : NumaEnv :=
  { baseEnv with nodeDirEntries := [some 7], writeStateRes := fun _ _ => -5 }

/-- Environment with a single block `memory21` whose `valid_zones` does
not begin with `Movable` (every other block's does). -/
def envC7 : NumaEnv :=
  { baseEnv with nodeDirEntries := [some 21]
                 readZonesRes := fun i => some (i != 21) }

/-- Environment whose node directory contains the entry `memory0`. -/
def envC10 : NumaEnv :=
  { baseEnv with nodeDirEntries := [some 0] }

/-- World in which the driver reports Online and every block is online. -/
def wOnAll : World :=
  { driverStatus := .online, blockOnline := fun _ => true, trace := [] }

/-- World in which only block 21 is online (driver still Offline). -/
def wC7 : World :=
  { driverStatus := .offline, blockOnline := fun i => i == 21, trace := [] }

/-- World in which the driver already reports Online (blocks untouched). -/
def wDrvOn : World :=
  { driverStatus := .online, blockOnline := fun _ => false, trace := [] }

/-- libnvidia-cfg environment in which open and close both succeed. -/
def cenvOk : CfgEnv :=
  { openOk := true, closeOk := true }

/-- Registry device at 0000:01:00 that is Enabled with its NUMA memory
Online (fd 3 held). -/
def devEnabledOnline : NvPdDevice :=
  { domain := 0, bus := 1, slot := 0, handle := true, mode := .enabled
    numa_status := .online, fd := 3 }

/-- Registry device at 0000:01:00 that is Disabled and Offline with no
stored descriptor. -/
def devDisabledOffline : NvPdDevice :=
  { domain := 0, bus := 1, slot := 0, handle := false, mode := .disabled
    numa_status := .offline, fd := -1 }

/-- Registry device at 0000:01:00 that is Enabled and recorded Online but
holds no descriptor (fd -1). -/
def devOnlineNoFd : NvPdDevice :=
  { domain := 0, bus := 1, slot := 0, handle := true, mode := .enabled
    numa_status := .online, fd := -1 }

/-! Helper lemmas about traces and the block-walk loops. -/

lemma emit_blockOnline (w : World) (e : Event) :
    (emit w e).blockOnline = w.blockOnline := rfl

lemma readIds_append (a b : List Event) :
    readIds (a ++ b) = readIds a ++ readIds b :=
  List.filterMap_append a b _

lemma writeIds_append (a b : List Event) :
    writeIds (a ++ b) = writeIds a ++ writeIds b :=
  List.filterMap_append a b _

lemma countCloseFd_append (a b : List Event) :
    countCloseFd (a ++ b) = countCloseFd a + countCloseFd b :=
  List.countP_append _ a b

lemma change_memblock_state_readIds (env : NumaEnv) (id : Nat) (s : MemState)
    (w : World) :
    readIds ((change_memblock_state env id s w).2.trace)
      = readIds w.trace ++ [id] := by
  unfold change_memblock_state emit
  cases h1 : env.readStateOk id <;> cases h2 : w.blockOnline id <;> cases s <;>
    simp [h1, h2, readIds, List.filterMap_append]
  all_goals (first
    | (by_cases h3 : env.writeStateRes id true = 0 <;>
        simp [h3, readIds, List.filterMap_append])
    | (by_cases h3 : env.writeStateRes id false = 0 <;>
        simp [h3, readIds, List.filterMap_append]))

lemma change_memblock_state_closeFd (env : NumaEnv) (id : Nat) (s : MemState)
    (w : World) :
    countCloseFd ((change_memblock_state env id s w).2.trace)
      = countCloseFd w.trace := by
  unfold change_memblock_state emit
  cases h1 : env.readStateOk id <;> cases h2 : w.blockOnline id <;> cases s <;>
    simp [h1, h2, countCloseFd, List.countP_append]
  all_goals (first
    | (by_cases h3 : env.writeStateRes id true = 0 <;>
        simp [h3, countCloseFd, List.countP_append])
    | (by_cases h3 : env.writeStateRes id false = 0 <;>
        simp [h3, countCloseFd, List.countP_append]))

lemma runBlocks_readIds (env : NumaEnv) (s : MemState) :
    ∀ (ids : List Nat) (errAcc : Int) (changed : Nat) (w : World),
      readIds ((runBlocks env s ids errAcc changed w).2.2.trace)
        = readIds w.trace ++ ids := by
  intro ids
  induction ids with
  | nil => intro errAcc changed w; simp [runBlocks]
  | cons id rest ih =>
      intro errAcc changed w
      rw [runBlocks]
      rw [ih, change_memblock_state_readIds]
      simp

lemma runBlocks_closeFd (env : NumaEnv) (s : MemState) :
    ∀ (ids : List Nat) (errAcc : Int) (changed : Nat) (w : World),
      countCloseFd ((runBlocks env s ids errAcc changed w).2.2.trace)
        = countCloseFd w.trace := by
  intro ids
  induction ids with
  | nil => intro errAcc changed w; simp [runBlocks]
  | cons id rest ih =>
      intro errAcc changed w
      rw [runBlocks]
      rw [ih, change_memblock_state_closeFd]

lemma descendLoop_eq (env : NumaEnv) :
    ∀ (cnt id start : Nat) (errAcc : Int) (changed : Nat) (w : World)
      (fuel : Nat), 1 ≤ start → id < U32MOD → id + 1 - start = cnt →
      cnt + 1 ≤ fuel →
      descendLoop env fuel id start errAcc changed w
        = some (runBlocks env .online (descIds start id) errAcc changed w) := by
  intro cnt
  induction cnt with
  | zero =>
      intro id start errAcc changed w fuel h1 h2 h3 h4
      obtain ⟨f, rfl⟩ : ∃ f, fuel = f + 1 := ⟨fuel - 1, by omega⟩
      have hlt : ¬ start ≤ id := by omega
      rw [descendLoop, if_neg hlt]
      have hnil : descIds start id = [] := by
        unfold descIds
        rw [h3]
        rfl
      rw [hnil, runBlocks]
  | succ n ih =>
      intro id start errAcc changed w fuel h1 h2 h3 h4
      obtain ⟨f, rfl⟩ : ∃ f, fuel = f + 1 := ⟨fuel - 1, by omega⟩
      have hle : start ≤ id := by omega
      rw [descendLoop, if_pos hle]
      have hdec : (id + (U32MOD - 1)) % U32MOD = id - 1 := by
        have hsum : id + (U32MOD - 1) = (id - 1) + U32MOD := by
          have : 1 ≤ id := le_trans h1 hle
          unfold U32MOD at *
          omega
        rw [hsum, Nat.add_mod_right]
        exact Nat.mod_eq_of_lt (by omega)
      have hdesc : descIds start id = id :: descIds start (id - 1) := by
        unfold descIds
        rw [h3]
        have hn : (id - 1) + 1 - start = n := by omega
        rw [hn]
        rw [List.range'_concat]
        have hid : start + 1 * n = id := by omega
        rw [hid, List.reverse_append]
        rfl
      rw [hdesc, runBlocks, hdec]
      exact ih (id - 1) start _ _ _ f h1 (by omega) (by omega) (by omega)

lemma ascendLoop_eq (env : NumaEnv) :
    ∀ (cnt id endId : Nat) (errAcc : Int) (changed : Nat) (w : World)
      (fuel : Nat), endId + 1 < U32MOD → endId + 1 - id = cnt →
      cnt + 1 ≤ fuel →
      ascendLoop env fuel id endId errAcc changed w
        = some (runBlocks env .offline (ascIds id endId) errAcc changed w) := by
  intro cnt
  induction cnt with
  | zero =>
      intro id endId errAcc changed w fuel h1 h2 h3
      obtain ⟨f, rfl⟩ : ∃ f, fuel = f + 1 := ⟨fuel - 1, by omega⟩
      have hlt : ¬ id ≤ endId := by omega
      rw [ascendLoop, if_neg hlt]
      have hnil : ascIds id endId = [] := by
        unfold ascIds
        rw [h2]
        rfl
      rw [hnil, runBlocks]
  | succ n ih =>
      intro id endId errAcc changed w fuel h1 h2 h3
      obtain ⟨f, rfl⟩ : ∃ f, fuel = f + 1 := ⟨fuel - 1, by omega⟩
      have hle : id ≤ endId := by omega
      rw [ascendLoop, if_pos hle]
      have hinc : (id + 1) % U32MOD = id + 1 :=
        Nat.mod_eq_of_lt (by omega)
      have hasc : ascIds id endId = id :: ascIds (id + 1) endId := by
        unfold ascIds
        rw [h2, List.range'_succ]
        have hn : endId + 1 - (id + 1) = n := by omega
        rw [hn]
      rw [hasc, runBlocks, hinc]
      exact ih (id + 1) endId _ _ _ f h1 (by omega) (by omega)

lemma change_memblock_state_fresh_online (env : NumaEnv) (id : Nat) (w : World)
    (h1 : env.readStateOk id = true) (h2 : w.blockOnline id = false)
    (h3 : env.writeStateRes id true = 0) :
    (change_memblock_state env id .online w).1 = 0 ∧
    (change_memblock_state env id .online w).2.trace
      = w.trace ++ [Event.readState id, Event.writeState id true] ∧
    ∀ b, b ≠ id →
      (change_memblock_state env id .online w).2.blockOnline b
        = w.blockOnline b := by
  unfold change_memblock_state emit
  refine ⟨by simp [h1, h2, h3], by simp [h1, h2, h3], ?_⟩
  intro b hb
  simp [h1, h2, h3, hb]

lemma runBlocks_writeIds_online (env : NumaEnv)
    (hr : ∀ i, env.readStateOk i = true)
    (hw : ∀ i, env.writeStateRes i true = 0) :
    ∀ (ids : List Nat) (errAcc : Int) (changed : Nat) (w : World),
      (∀ i ∈ ids, w.blockOnline i = false) → ids.Nodup →
      writeIds ((runBlocks env .online ids errAcc changed w).2.2.trace)
        = writeIds w.trace ++ ids.map (fun i => (i, true)) := by
  intro ids
  induction ids with
  | nil => intro errAcc changed w _ _; simp [runBlocks]
  | cons id rest ih =>
      intro errAcc changed w hb hnd
      obtain ⟨hst, htr, hbo⟩ :=
        change_memblock_state_fresh_online env id w (hr id)
          (hb id (List.mem_cons_self id rest)) (hw id)
      obtain ⟨hid, hnd'⟩ := List.nodup_cons.mp hnd
      rw [runBlocks]
      simp only [hst, if_pos rfl]
      rw [ih _ _ _ (fun i hi => by
            rw [hbo i (fun hcon => hid (hcon ▸ hi))]
            exact hb i (List.mem_cons_of_mem id hi)) hnd']
      rw [htr, writeIds_append]
      simp [writeIds]

lemma gather_ok (env : NumaEnv) (w : World) (s e : Nat)
    (hok : env.nodeDirOk = true)
    (hscan : gather_scan env.nodeDirEntries UINT32_MAX 0 = (false, s, e))
    (hs : s ≠ UINT32_MAX) :
    gather_memblock_ids_for_node env w
      = (0, some (s, e), emit w (.nodeDir true)) := by
  unfold gather_memblock_ids_for_node
  rw [hok]
  simp [hscan, hs]

lemma change_numa_node_state_online_eq (env : NumaEnv) (w : World)
    (region bsz s e : Nat) (hok : env.nodeDirOk = true)
    (hscan : gather_scan env.nodeDirEntries UINT32_MAX 0 = (false, s, e))
    (hs1 : 1 ≤ s) (hse : s ≤ e) (he : e + 1 < U32MOD) :
    change_numa_node_state env region bsz .online w
      = (if (runBlocks env .online (descIds s e) 0 0
              (emit w (.nodeDir true))).2.1 * bsz < region then
           some ((runBlocks env .online (descIds s e) 0 0
                    (emit w (.nodeDir true))).1,
                 (runBlocks env .online (descIds s e) 0 0
                    (emit w (.nodeDir true))).2.2)
         else if (runBlocks env .online (descIds s e) 0 0
                    (emit w (.nodeDir true))).2.1 = 0 then
           some (-12, (runBlocks env .online (descIds s e) 0 0
                    (emit w (.nodeDir true))).2.2)
         else some (0, (runBlocks env .online (descIds s e) 0 0
                    (emit w (.nodeDir true))).2.2)) := by
  have hs : s ≠ UINT32_MAX := by
    unfold UINT32_MAX
    unfold U32MOD at he
    omega
  unfold change_numa_node_state
  rw [gather_ok env w s e hok hscan hs]
  simp only [Option.getD_some]
  rw [if_neg (by norm_num : ¬ (0 : Int) < 0), if_neg (by omega : ¬ e < s)]
  simp only [if_true, eq_self_iff_true]
  rw [descendLoop_eq env (e + 1 - s) e s 0 0 _ (e + 2) hs1 (by omega) rfl
      (by omega)]

lemma change_numa_node_state_offline_eq (env : NumaEnv) (w : World)
    (region bsz s e : Nat) (hok : env.nodeDirOk = true)
    (hscan : gather_scan env.nodeDirEntries UINT32_MAX 0 = (false, s, e))
    (hse : s ≤ e) (he : e + 1 < U32MOD) :
    change_numa_node_state env region bsz .offline w
      = (if (runBlocks env .offline (ascIds s e) 0 0
              (emit w (.nodeDir true))).2.1 * bsz < region then
           some ((runBlocks env .offline (ascIds s e) 0 0
                    (emit w (.nodeDir true))).1,
                 (runBlocks env .offline (ascIds s e) 0 0
                    (emit w (.nodeDir true))).2.2)
         else if (runBlocks env .offline (ascIds s e) 0 0
                    (emit w (.nodeDir true))).2.1 = 0 then
           some (-12, (runBlocks env .offline (ascIds s e) 0 0
                    (emit w (.nodeDir true))).2.2)
         else some (0, (runBlocks env .offline (ascIds s e) 0 0
                    (emit w (.nodeDir true))).2.2)) := by
  have hs : s ≠ UINT32_MAX := by
    unfold UINT32_MAX
    unfold U32MOD at he
    omega
  unfold change_numa_node_state
  rw [gather_ok env w s e hok hscan hs]
  simp only [Option.getD_some]
  rw [if_neg (by norm_num : ¬ (0 : Int) < 0), if_neg (by omega : ¬ e < s)]
  rw [if_neg (by simp : ¬ MemState.offline = MemState.online)]
  simp only [if_true, eq_self_iff_true]
  rw [ascendLoop_eq env (e + 1 - s) s e 0 0 _ (e + 2 - s) he rfl (by omega)]

lemma descendLoop_zero_start :
    ∀ (env : NumaEnv) (fuel id : Nat) (errAcc : Int) (changed : Nat)
      (w : World), descendLoop env fuel id 0 errAcc changed w = none := by
  intro env fuel
  induction fuel with
  | zero => intro id errAcc changed w; rfl
  | succ n ih =>
      intro id errAcc changed w
      rw [descendLoop, if_pos (Nat.zero_le id)]
      exact ih _ _ _ _

lemma readIds_emit_nodeDir (w : World) (b : Bool) :
    readIds ((emit w (.nodeDir b)).trace) = readIds w.trace := by
  simp [emit, readIds, List.filterMap_append]

lemma writeIds_emit_nodeDir (w : World) (b : Bool) :
    writeIds ((emit w (.nodeDir b)).trace) = writeIds w.trace := by
  simp [emit, writeIds, List.filterMap_append]

lemma descIds_nodup (s e : Nat) : (descIds s e).Nodup := by
  unfold descIds
  exact List.nodup_reverse.mpr (List.nodup_range' s (e + 1 - s) 1 one_pos)

/-- C5: in `change_numa_node_state`, when the gathered block range is
`s..e` (with `1 ≤ s ≤ e`, ids in the uint32 domain), the online pass
visits the blocks in descending order `e, e-1, ..., s` and the offline
pass in ascending order `s, ..., e`; when no block is online and every
read and write succeeds, the online pass writes `online_movable` to the
blocks in exactly that descending order (blocks 4,3,2,1 in the four-block
scenario). -/
theorem c5_block_iteration_order :
    ∀ (env : NumaEnv) (w : World) (region bsz s e : Nat),
      env.nodeDirOk = true →
      gather_scan env.nodeDirEntries UINT32_MAX 0 = (false, s, e) →
      1 ≤ s → s ≤ e → e + 1 < U32MOD →
      ((change_numa_node_state env region bsz .online w).map
          (fun r => readIds r.2.trace)
        = some (readIds w.trace ++ descIds s e)) ∧
      ((change_numa_node_state env region bsz .offline w).map
          (fun r => readIds r.2.trace)
        = some (readIds w.trace ++ ascIds s e)) ∧
      ((∀ i, env.readStateOk i = true) →
       (∀ i, env.writeStateRes i true = 0) →
       (∀ i, w.blockOnline i = false) →
       (change_numa_node_state env region bsz .online w).map
           (fun r => writeIds r.2.trace)
         = some (writeIds w.trace ++ (descIds s e).map (fun i => (i, true)))) := by
  intro env w region bsz s e hok hscan hs1 hse he
  refine ⟨?_, ?_, ?_⟩
  · rw [change_numa_node_state_online_eq env w region bsz s e hok hscan hs1 hse he]
    split <;> (try split) <;>
      simp [runBlocks_readIds, readIds_emit_nodeDir]
  · rw [change_numa_node_state_offline_eq env w region bsz s e hok hscan hse he]
    split <;> (try split) <;>
      simp [runBlocks_readIds, readIds_emit_nodeDir]
  · intro hr hw hb
    rw [change_numa_node_state_online_eq env w region bsz s e hok hscan hs1 hse he]
    have hwr := runBlocks_writeIds_online env hr hw (descIds s e) 0 0
      (emit w (.nodeDir true)) (fun i _ => hb i) (descIds_nodup s e)
    split <;> (try split) <;>
      simp [hwr, writeIds_emit_nodeDir]

/-- C5 witness: the four-contiguous-block scenario (blocks 1-4, 64-unit
blocks, 256-unit region, nothing online, all operations succeed): the
online pass reads and writes blocks in the order 4, 3, 2, 1. -/
theorem c5_block_iteration_order_witness :
    (change_numa_node_state envC5 256 64 .online w0).map
        (fun r => readIds r.2.trace) = some (readIds w0.trace ++ descIds 1 4) ∧
    (change_numa_node_state envC5 256 64 .online w0).map
        (fun r => writeIds r.2.trace)
      = some (writeIds w0.trace ++ (descIds 1 4).map (fun i => (i, true))) := by
  have h := c5_block_iteration_order envC5 w0 256 64 1 4 rfl (by decide)
    (by decide) (by decide) (by decide)
  exact ⟨h.1, h.2.2 (fun i => rfl) (fun i => rfl) (fun i => rfl)⟩

/-- C3 (code bug): with node directory `[memory5]`, a 128-unit region and
64-unit blocks, and every sysfs write succeeding, the online pass changes
one block (64 of 128 units: a shortfall), yet `change_numa_node_state`
returns 0 (success), because the shortfall branch returns `err_status`,
which is still 0 when no individual write failed — contradicting its own
"Failed to change the state" diagnostic and the spec's no-partial-success
rule. -/
theorem c3_shortfall_returns_success :
    (change_numa_node_state envC3 128 64 .online w0).map
        (fun r => (r.1, writeIds r.2.trace)) = some (0, [(5, true)]) ∧
    1 * 64 < 128 := by
  exact ⟨rfl, by norm_num⟩

/-- C10 (code bug): `gather_memblock_ids_for_node` on a directory
containing `memory0` bails out as the claim says, but with status 0
(success) and the out-parameters unwritten, so its caller proceeds with
the zero-initialized range 0..0; the descending loop with start id 0
never terminates (every fuel bound is exhausted, for every starting id),
whereas for any start id of the form `s+1 ≥ 1` the countdown from any
uint32 end id terminates. -/
theorem c10_zero_block_id_termination :
    ((gather_memblock_ids_for_node envC10 w0).1 = 0 ∧
     (gather_memblock_ids_for_node envC10 w0).2.1 = none) ∧
    (∀ (env : NumaEnv) (fuel id : Nat) (errAcc : Int) (changed : Nat)
       (w : World), descendLoop env fuel id 0 errAcc changed w = none) ∧
    (∀ (env : NumaEnv) (w : World) (e s : Nat) (errAcc : Int)
       (changed : Nat),
       descendLoop env (e % U32MOD + 2) (e % U32MOD) (s + 1) errAcc changed w
         ≠ none) := by
  refine ⟨⟨rfl, rfl⟩, descendLoop_zero_start, ?_⟩
  intro env w e s errAcc changed
  rw [descendLoop_eq env (e % U32MOD + 1 - (s + 1)) (e % U32MOD) (s + 1)
      errAcc changed w (e % U32MOD + 2) (by omega)
      (Nat.mod_lt _ (by unfold U32MOD; norm_num)) rfl (by omega)]
  simp

/-- C2 counterexample: with a fully cooperative kernel except for a NUMA
base address (1000) not aligned to the memblock size (64), the online
sequence fails at step 5 (alignment) and returns NumaFailure with kernel
status OnlineFailed, but performs only one NUMA-info query and never
attempts the `OfflineInProgress` transition: the offline rollback
(which always begins with a second NUMA-info query) is NOT run,
contradicting the claim that every step-5-to-10 failure runs it. -/
theorem c2_counterexample :
    (nvNumaOnlineMemory envC2mis { fd := -1 } w0).map
        (fun r => (r.1, countGetInfo r.2.2.trace,
          hasSetStatus r.2.2.trace .offlineInProgress, r.2.2.driverStatus))
      = some (.errNumaFailure, 1, false, .onlineFailed) := by
  rfl

/-- C2 (amended): failures at steps 6 (probing), 8-9 (block onlining) and
10 (blacklisted-page retirement) run the offline rollback best-effort
(its status is discarded) and then reach the `error:` label; failures at
step 5 (alignment) and step 7 (auto-online check) skip the rollback and
reach the `error:` label directly.  The `error:` label sets kernel status
to OnlineFailed best-effort, closes the descriptor, and yields
NumaFailure. -/
theorem c2_online_failure_routing (env : NumaEnv) :
    (∀ w, (¬ nvIsAligned env.numaMemAddr env.memblockSize ∨
           ¬ nvIsAligned env.numaMemSize env.memblockSize) →
        online_sequence_body env w = some (online_error_path env w)) ∧
    (∀ rp : Int × World, rp.1 < 0 →
        online_after_probe env rp = online_failed_path env rp.2) ∧
    (∀ rc : Int × Bool × World, rc.1 < 0 →
        online_after_check env rc = some (online_error_path env rc.2.2)) ∧
    (∀ rn : Int × World, rn.1 < 0 →
        online_after_change env rn = online_failed_path env rn.2) ∧
    (∀ rb : Int × World, rb.1 < 0 →
        online_after_blacklist env rb = online_failed_path env rb.2) ∧
    (∀ w, (offline_memory env w).isSome →
        online_failed_path env w
          = (offline_memory env w).map (fun r => online_error_path env r.2)) ∧
    (∀ w, (online_error_path env w).1 = .errNumaFailure ∧
        (online_error_path env w).2.trace
          = w.trace ++ [.setStatus .onlineFailed (env.setStatusOk .onlineFailed),
                        .closeFd] ∧
        (env.setStatusOk .onlineFailed = true →
          (online_error_path env w).2.driverStatus = .onlineFailed)) := by
  refine ⟨?_, ?_, ?_, ?_, ?_, ?_, ?_⟩
  · intro w h
    unfold online_sequence_body
    rw [if_pos h]
  · intro rp h
    unfold online_after_probe
    rw [if_pos h]
  · intro rc h
    unfold online_after_check
    rw [if_pos h]
  · intro rn h
    unfold online_after_change
    rw [if_pos h]
  · intro rb h
    unfold online_after_blacklist
    rw [if_pos h]
  · intro w h
    unfold online_failed_path
    cases hm : offline_memory env w with
    | none => rw [hm] at h; exact absurd h (by simp)
    | some r => simp [hm]
  · intro w
    unfold online_error_path set_gpu_numa_status emit
    by_cases hok : env.setStatusOk .onlineFailed
    · simp [hok]
    · simp [hok]

/-- C2 witness: at the misaligned environment the alignment conjunct of
the routing theorem applies concretely (base 1000 not 64-aligned), and a
probe failure status -5 concretely takes the rollback branch. -/
theorem c2_online_failure_routing_witness :
    ((¬ nvIsAligned envC2mis.numaMemAddr envC2mis.memblockSize ∨
      ¬ nvIsAligned envC2mis.numaMemSize envC2mis.memblockSize) ∧
     online_sequence_body envC2mis w0 = some (online_error_path envC2mis w0)) ∧
    ((-5 : Int) < 0 ∧
     online_after_probe envC2mis (-5, w0) = online_failed_path envC2mis w0) := by
  refine ⟨⟨Or.inl (by decide), (c2_online_failure_routing envC2mis).1 w0
      (Or.inl (by decide))⟩,
    ⟨by norm_num, (c2_online_failure_routing envC2mis).2.1 (-5, w0)
      (by norm_num)⟩⟩

lemma writeIds_set_gpu_numa_status (env : NumaEnv) (s : MemState) (w : World) :
    writeIds ((set_gpu_numa_status env s w).2.trace) = writeIds w.trace := by
  unfold set_gpu_numa_status emit
  by_cases h : env.setStatusOk s <;>
    simp [h, writeIds, List.filterMap_append]

lemma writeIds_online_error_path (env : NumaEnv) (w : World) :
    writeIds ((online_error_path env w).2.trace) = writeIds w.trace := by
  unfold online_error_path
  have h := writeIds_set_gpu_numa_status env .onlineFailed w
  simp [emit, writeIds, List.filterMap_append]
  simpa [writeIds] using h

lemma writeIds_probeLoop (env : NumaEnv) :
    ∀ (fuel start endAddr bsz : Nat) (w : World) (r : Int × World),
      probeLoop env fuel start endAddr bsz w = some r →
      writeIds r.2.trace = writeIds w.trace := by
  intro fuel
  induction fuel with
  | zero => intro start endAddr bsz w r h; cases h
  | succ n ih =>
      intro start endAddr bsz w r h
      rw [probeLoop] at h
      by_cases hc : start + bsz ≤ endAddr
      · rw [if_pos hc] at h
        by_cases hacc : env.probeAccessOk (start / bsz)
        · simp only [hacc, not_true, if_neg, if_false] at h
          by_cases h17 : env.probeWriteRes start = -17
          · rw [if_pos h17] at h
            have := ih _ _ _ _ _ h
            simpa [emit, writeIds, List.filterMap_append] using this
          · rw [if_neg h17] at h
            by_cases hlt : env.probeWriteRes start < 0
            · rw [if_pos hlt] at h
              cases h
              simp [emit, writeIds, List.filterMap_append]
            · rw [if_neg hlt] at h
              have := ih _ _ _ _ _ h
              simpa [emit, writeIds, List.filterMap_append] using this
        · simp only [hacc, not_false_iff, if_pos, if_true] at h
          cases h
          simp [emit, writeIds, List.filterMap_append]
      · rw [if_neg hc] at h
        cases h
        rfl

lemma writeIds_probe_node_memory (env : NumaEnv) (base size bsz : Nat)
    (w : World) (r : Int × World)
    (h : probe_node_memory env base size bsz w = some r) :
    writeIds r.2.trace = writeIds w.trace := by
  unfold probe_node_memory at h
  by_cases ha : ¬ nvIsAligned base bsz ∨ ¬ nvIsAligned (base + size) bsz
  · rw [if_pos ha] at h
    cases h
    rfl
  · rw [if_neg ha] at h
    exact writeIds_probeLoop env _ _ _ _ _ _ h

lemma writeIds_autoScan (env : NumaEnv) :
    ∀ (entries : List (Option Nat)) (ndir nmv : Nat) (w : World),
      writeIds ((autoScan env entries ndir nmv w).2.2.2.2.trace)
        = writeIds w.trace := by
  intro entries
  induction entries with
  | nil => intro ndir nmv w; rfl
  | cons en rest ih =>
      intro ndir nmv w
      cases en with
      | none => rw [autoScan]; exact ih _ _ _
      | some id =>
          rw [autoScan]
          by_cases hr : env.readStateOk id
          · rw [if_pos hr]
            by_cases hon : w.blockOnline id
            · rw [if_pos hon]
              cases hz : env.readZonesRes id with
              | none => simp [emit, writeIds, List.filterMap_append]
              | some b =>
                  cases b
                  · simp [emit, writeIds, List.filterMap_append]
                  · simp only [if_true]
                    rw [ih]
                    simp [emit, writeIds, List.filterMap_append]
            · rw [if_neg hon]
              rw [ih]
              simp [emit, writeIds, List.filterMap_append]
          · rw [if_neg hr]
            simp [emit, writeIds, List.filterMap_append]

lemma writeIds_check_memory_auto_online (env : NumaEnv) (w : World) :
    writeIds ((check_memory_auto_online env w).2.2.trace)
      = writeIds w.trace := by
  unfold check_memory_auto_online
  cases hok : env.nodeDirOk with
  | false => simp [emit, writeIds, List.filterMap_append]
  | true =>
      have h := writeIds_autoScan env env.nodeDirEntries 0 0
        (emit w (.nodeDir true))
      repeat' split
      all_goals simp_all [emit, writeIds, List.filterMap_append]

lemma autoScan_bad (env : NumaEnv)
    (hr : ∀ i, env.readStateOk i = true)
    (hz : ∀ i, (env.readZonesRes i).isSome) :
    ∀ (entries : List (Option Nat)) (ndir nmv : Nat) (w : World),
      (∃ en ∈ entries, isBadBlock env w en = true) → nmv ≤ ndir →
      (autoScan env entries ndir nmv w).1 = -95 ∧
      (autoScan env entries ndir nmv w).2.2.2.1 = false ∧
      (autoScan env entries ndir nmv w).2.2.1
        < (autoScan env entries ndir nmv w).2.1 := by
  intro entries
  induction entries with
  | nil =>
      intro ndir nmv w hex _
      obtain ⟨en, hmem, _⟩ := hex
      cases hmem
  | cons en rest ih =>
      intro ndir nmv w hex hle
      cases en with
      | none =>
          rw [autoScan]
          obtain ⟨x, hmem, hbad⟩ := hex
          rcases List.mem_cons.mp hmem with hx | hx
          · subst hx
            simp [isBadBlock] at hbad
          · exact ih ndir nmv w ⟨x, hx, hbad⟩ hle
      | some id =>
          rw [autoScan]
          rw [if_pos (hr id)]
          by_cases hon : w.blockOnline id
          · rw [if_pos hon]
            obtain ⟨b, hb⟩ := Option.isSome_iff_exists.mp (hz id)
            rw [hb]
            cases b
            · refine ⟨rfl, rfl, ?_⟩
              show nmv < ndir + 1
              omega
            · obtain ⟨x, hmem, hbad⟩ := hex
              rcases List.mem_cons.mp hmem with hx | hx
              · subst hx
                simp [isBadBlock, hon, hb] at hbad
              · simp only [if_true]
                exact ih (ndir + 1) (nmv + 1)
                  (emit (emit w (.readState id)) (.readZones id))
                  ⟨x, hx, hbad⟩ (by omega)
          · rw [if_neg hon]
            obtain ⟨x, hmem, hbad⟩ := hex
            rcases List.mem_cons.mp hmem with hx | hx
            · subst hx
              rw [Bool.not_eq_true] at hon
              simp [isBadBlock, hon] at hbad
            · exact ih (ndir + 1) nmv (emit w (.readState id))
                ⟨x, hx, hbad⟩ (by omega)

/-- C7: (a) when the node directory lists, every block-state read
succeeds and every `valid_zones` read succeeds, and some listed block is
online with a `valid_zones` not beginning with `Movable`,
`check_memory_auto_online` returns `-ENOTSUP` with the auto-online flag
false; (b) in the online sequence, once the probe succeeded, any negative
auto-online-check status aborts the sequence with NumaFailure and with no
block-state write anywhere in the run (`change_numa_node_state` is never
entered). -/
theorem c7_auto_online_unsupported (env : NumaEnv) :
    (∀ w, env.nodeDirOk = true →
      (∀ i, env.readStateOk i = true) →
      (∀ i, (env.readZonesRes i).isSome) →
      (∃ en ∈ env.nodeDirEntries, isBadBlock env w en = true) →
      (check_memory_auto_online env w).1 = -95 ∧
      (check_memory_auto_online env w).2.1 = false) ∧
    (∀ (w : World) (stp stc : Int),
      nvIsAligned env.numaMemAddr env.memblockSize = true →
      nvIsAligned env.numaMemSize env.memblockSize = true →
      (probe_node_memory env env.numaMemAddr env.numaMemSize
          env.memblockSize w).map (fun r => r.1) = some stp →
      ¬ stp < 0 →
      (probe_node_memory env env.numaMemAddr env.numaMemSize
          env.memblockSize w).map
          (fun rp => (check_memory_auto_online env rp.2).1) = some stc →
      stc < 0 →
      (online_sequence_body env w).map (fun r => (r.1, writeIds r.2.trace))
        = some (.errNumaFailure, writeIds w.trace)) := by
  constructor
  · intro w hok hr hz hex
    unfold check_memory_auto_online
    rw [hok]
    obtain ⟨h95, hcl, hlt⟩ := autoScan_bad env hr hz env.nodeDirEntries 0 0
      (emit w (.nodeDir true)) hex (le_refl 0)
    rw [hcl]
    simp only [Bool.false_eq_true, if_false, if_true]
    rw [if_neg (by omega :
      ¬ (autoScan env env.nodeDirEntries 0 0 (emit w (.nodeDir true))).2.1 = 0)]
    refine ⟨h95, ?_⟩
    simp only []
    exact decide_eq_false (by omega)
  · intro w stp stc h1 h2 hp hstp hc hstc
    cases hprobe : probe_node_memory env env.numaMemAddr env.numaMemSize
        env.memblockSize w with
    | none => rw [hprobe] at hp; cases hp
    | some rp =>
        rw [hprobe] at hp hc
        simp only [Option.map_some'] at hp hc
        have hrp1 : rp.1 = stp := by injection hp
        have hrc1 : (check_memory_auto_online env rp.2).1 = stc := by
          injection hc
        have hbody : online_sequence_body env w = online_after_probe env rp := by
          unfold online_sequence_body
          rw [if_neg (by simp [h1, h2]), hprobe]
        rw [hbody]
        unfold online_after_probe
        rw [if_neg (by rw [hrp1]; exact hstp)]
        unfold online_after_check
        rw [if_pos (by rw [hrc1]; exact hstc)]
        simp only [Option.map_some']
        have hw2 : writeIds (online_error_path env
            (check_memory_auto_online env rp.2).2.2).2.trace
              = writeIds w.trace := by
          rw [writeIds_online_error_path, writeIds_check_memory_auto_online,
              writeIds_probe_node_memory env _ _ _ _ _ hprobe]
        rw [hw2]
        rfl

/-- C7 witness: node with single block `memory21`, block 21 online with a
`valid_zones` not beginning with `Movable`: the check returns `-ENOTSUP`
and the aligned online body aborts with NumaFailure and no block-state
write. -/
theorem c7_auto_online_unsupported_witness :
    ((check_memory_auto_online envC7 wC7).1 = -95 ∧
     (check_memory_auto_online envC7 wC7).2.1 = false) ∧
    (online_sequence_body envC7 wC7).map (fun r => (r.1, writeIds r.2.trace))
      = some (.errNumaFailure, writeIds wC7.trace) := by
  have h := c7_auto_online_unsupported envC7
  exact ⟨h.1 wC7 rfl (fun i => rfl) (fun i => rfl) (by decide),
    h.2 wC7 0 (-95) (by decide) (by decide) rfl (by norm_num) rfl
      (by norm_num)⟩

lemma closeFd_set_gpu_numa_status (env : NumaEnv) (s : MemState) (w : World) :
    countCloseFd ((set_gpu_numa_status env s w).2.trace)
      = countCloseFd w.trace := by
  unfold set_gpu_numa_status emit
  by_cases h : env.setStatusOk s <;>
    simp [h, countCloseFd, List.countP_append]

lemma closeFd_descendLoop (env : NumaEnv) :
    ∀ (fuel id start : Nat) (errAcc : Int) (changed : Nat) (w : World)
      (r : Int × Nat × World),
      descendLoop env fuel id start errAcc changed w = some r →
      countCloseFd r.2.2.trace = countCloseFd w.trace := by
  intro fuel
  induction fuel with
  | zero => intro id start errAcc changed w r h; cases h
  | succ n ih =>
      intro id start errAcc changed w r h
      rw [descendLoop] at h
      by_cases hc : start ≤ id
      · rw [if_pos hc] at h
        have := ih _ _ _ _ _ _ h
        rw [this, change_memblock_state_closeFd]
      · rw [if_neg hc] at h
        cases h
        rfl

lemma closeFd_ascendLoop (env : NumaEnv) :
    ∀ (fuel id endId : Nat) (errAcc : Int) (changed : Nat) (w : World)
      (r : Int × Nat × World),
      ascendLoop env fuel id endId errAcc changed w = some r →
      countCloseFd r.2.2.trace = countCloseFd w.trace := by
  intro fuel
  induction fuel with
  | zero => intro id endId errAcc changed w r h; cases h
  | succ n ih =>
      intro id endId errAcc changed w r h
      rw [ascendLoop] at h
      by_cases hc : id ≤ endId
      · rw [if_pos hc] at h
        have := ih _ _ _ _ _ _ h
        rw [this, change_memblock_state_closeFd]
      · rw [if_neg hc] at h
        cases h
        rfl

lemma closeFd_gather (env : NumaEnv) (w : World) :
    countCloseFd ((gather_memblock_ids_for_node env w).2.2.trace)
      = countCloseFd w.trace := by
  unfold gather_memblock_ids_for_node emit
  cases hok : env.nodeDirOk
  · simp [countCloseFd, List.countP_append]
  · by_cases h1 : (gather_scan env.nodeDirEntries UINT32_MAX 0).1 = true
    · simp [h1, countCloseFd, List.countP_append]
    · by_cases h2 : (gather_scan env.nodeDirEntries UINT32_MAX 0).2.1
          = UINT32_MAX
      · simp [h1, h2, countCloseFd, List.countP_append]
      · simp [h1, h2, countCloseFd, List.countP_append]

lemma closeFd_change_numa_node_state (env : NumaEnv)
    (region bsz : Nat) (st : MemState) (w : World) (r : Int × World)
    (h : change_numa_node_state env region bsz st w = some r) :
    countCloseFd r.2.trace = countCloseFd w.trace := by
  unfold change_numa_node_state at h
  by_cases h1 : (gather_memblock_ids_for_node env w).1 < 0
  · rw [if_pos h1] at h
    cases h
    exact closeFd_gather env w
  · rw [if_neg h1] at h
    by_cases h2 : ((gather_memblock_ids_for_node env w).2.1.getD (0, 0)).2
        < ((gather_memblock_ids_for_node env w).2.1.getD (0, 0)).1
    · rw [if_pos h2] at h
      cases h
      exact closeFd_gather env w
    · rw [if_neg h2] at h
      revert h
      split
      · intro h
        cases hp : descendLoop env
            (((gather_memblock_ids_for_node env w).2.1.getD (0, 0)).2 + 2)
            ((gather_memblock_ids_for_node env w).2.1.getD (0, 0)).2
            ((gather_memblock_ids_for_node env w).2.1.getD (0, 0)).1 0 0
            (gather_memblock_ids_for_node env w).2.2 with
        | none => rw [hp] at h; cases h
        | some rr =>
            rw [hp] at h
            have hcc := closeFd_descendLoop env _ _ _ _ _ _ _ hp
            simp only [] at h
            split at h <;> (try split at h) <;>
              (cases h; rw [hcc, closeFd_gather])
      · split
        · intro h
          cases hp : ascendLoop env
              (((gather_memblock_ids_for_node env w).2.1.getD (0, 0)).2 + 2
                - ((gather_memblock_ids_for_node env w).2.1.getD (0, 0)).1)
              ((gather_memblock_ids_for_node env w).2.1.getD (0, 0)).1
              ((gather_memblock_ids_for_node env w).2.1.getD (0, 0)).2 0 0
              (gather_memblock_ids_for_node env w).2.2 with
          | none => rw [hp] at h; cases h
          | some rr =>
              rw [hp] at h
              have hcc := closeFd_ascendLoop env _ _ _ _ _ _ _ hp
              simp only [] at h
              split at h <;> (try split at h) <;>
                (cases h; rw [hcc, closeFd_gather])
        · intro h
          simp only [] at h
          split at h <;> (try split at h) <;>
            (cases h; exact closeFd_gather env w)

lemma closeFd_offline_memory (env : NumaEnv) (w : World) (r : Int × World)
    (h : offline_memory env w = some r) :
    countCloseFd r.2.trace = countCloseFd w.trace := by
  unfold offline_memory at h
  by_cases hio : ¬ env.infoOk
  · rw [if_pos hio] at h
    cases h
    simp [emit, countCloseFd, List.countP_append]
  · rw [if_neg hio] at h
    revert h
    split
    all_goals try (intro h; cases h; simp [emit, countCloseFd, List.countP_append])
    by_cases hs1 : (set_gpu_numa_status env .offlineInProgress
        (emit w (.getInfo env.infoOk))).1 < 0
    · rw [if_pos hs1]
      intro h
      cases h
      rw [closeFd_set_gpu_numa_status]
      simp [emit, countCloseFd, List.countP_append]
    · rw [if_neg hs1]
      intro h
      revert h
      cases hcn : change_numa_node_state env env.numaMemSize env.memblockSize
          .offline (set_gpu_numa_status env .offlineInProgress
            (emit w (.getInfo env.infoOk))).2 with
      | none => intro h; cases h
      | some rc =>
          have hc1 := closeFd_change_numa_node_state env _ _ _ _ _ hcn
          intro h0
          have h : (if rc.1 < 0 then
              some (rc.1, (set_gpu_numa_status env .offlineFailed rc.2).2)
            else
              if (set_gpu_numa_status env .offline rc.2).1 < 0 then
                some ((set_gpu_numa_status env .offline rc.2).1,
                  (set_gpu_numa_status env .offline rc.2).2)
              else some (0, (set_gpu_numa_status env .offline rc.2).2))
              = some r := h0
          by_cases hneg : rc.1 < 0
          · rw [if_pos hneg] at h
            cases h
            rw [closeFd_set_gpu_numa_status, hc1,
              closeFd_set_gpu_numa_status]
            simp [emit, countCloseFd, List.countP_append]
          · rw [if_neg hneg] at h
            by_cases hs3 : (set_gpu_numa_status env .offline rc.2).1 < 0
            · rw [if_pos hs3] at h
              cases h
              rw [closeFd_set_gpu_numa_status, hc1,
                closeFd_set_gpu_numa_status]
              simp [emit, countCloseFd, List.countP_append]
            · rw [if_neg hs3] at h
              cases h
              rw [closeFd_set_gpu_numa_status, hc1,
                closeFd_set_gpu_numa_status]
              simp [emit, countCloseFd, List.countP_append]

lemma nvNumaOfflineMemory_some (env : NumaEnv) (d : NvNumaDevice) (w : World)
    (ro : Int × World) (hfd : 0 ≤ d.fd)
    (hom : offline_memory env w = some ro) :
    nvNumaOfflineMemory env d w
      = (if ro.1 < 0 then some (.errNumaFailure, d, ro.2)
         else some (.success, { fd := -1 }, emit ro.2 .closeFd)) := by
  unfold nvNumaOfflineMemory
  rw [if_neg (by omega), hom]

lemma set_gpu_numa_status_fst_ok (env : NumaEnv) (s : MemState) (w : World)
    (h : env.setStatusOk s = true) :
    (set_gpu_numa_status env s w).1 = 0 := by
  unfold set_gpu_numa_status
  simp [h]

lemma set_gpu_numa_status_driver_ok (env : NumaEnv) (s : MemState) (w : World)
    (h : env.setStatusOk s = true) :
    (set_gpu_numa_status env s w).2.driverStatus = s := by
  unfold set_gpu_numa_status
  simp [h]

lemma hasSetStatus_set_gpu_numa_status (env : NumaEnv) (s : MemState)
    (w : World) :
    hasSetStatus ((set_gpu_numa_status env s w).2.trace) s = true := by
  unfold set_gpu_numa_status emit
  by_cases h : env.setStatusOk s <;>
    simp [h, hasSetStatus, List.any_append]

/-- C6 counterexample: driver Online, node directory exposing only
`memory7` while the region needs four 64-unit blocks, every write
succeeding: only one block is offlined (64 < 256, a shortfall), yet
`nvNumaOfflineMemory` returns success, sets kernel status Offline, closes
the descriptor and resets the stored fd to -1 — not the claimed
OfflineFailed-and-keep-fd behavior. -/
theorem c6_counterexample :
    (nvNumaOfflineMemory envC6 { fd := 3 } wOnAll).map
        (fun r => (r.1, r.2.1.fd, countCloseFd r.2.2.trace,
          r.2.2.driverStatus))
      = some (.success, -1, 1, .offline) ∧ 1 * 64 < 256 := by
  exact ⟨rfl, by norm_num⟩

/-- C6 (amended): when `offline_memory` reports an error — in particular
when the ascending pass changed fewer blocks than the region requires AND
at least one block write failed, so its propagated `err_status` is
negative — the kernel status is moved to OfflineFailed best-effort and
`nvNumaOfflineMemory` returns NumaFailure with the stored fd unchanged
and no descriptor close; only when `offline_memory` succeeds (which
includes the silent shortfall in which every attempted write succeeded)
are the descriptor closed and the stored fd reset to -1, the full path
having set kernel status Offline. -/
theorem c6_offline_failure_handling :
    (∀ (env : NumaEnv) (d : NvNumaDevice) (w : World) (st : Int),
      0 ≤ d.fd →
      (offline_memory env w).map (fun r => r.1) = some st → st < 0 →
      (nvNumaOfflineMemory env d w).map (fun r => (r.1, r.2.1))
        = some (.errNumaFailure, d) ∧
      (nvNumaOfflineMemory env d w).map
          (fun r => countCloseFd r.2.2.trace)
        = some (countCloseFd w.trace)) ∧
    (∀ (env : NumaEnv) (d : NvNumaDevice) (w : World) (st : Int),
      0 ≤ d.fd →
      (offline_memory env w).map (fun r => r.1) = some st → ¬ st < 0 →
      (nvNumaOfflineMemory env d w).map (fun r => (r.1, r.2.1.fd))
        = some (.success, -1) ∧
      (nvNumaOfflineMemory env d w).map
          (fun r => countCloseFd r.2.2.trace)
        = some (countCloseFd w.trace + 1)) ∧
    (∀ (env : NumaEnv) (w : World) (stc : Int),
      env.infoOk = true → w.driverStatus = .online →
      env.setStatusOk .offlineInProgress = true →
      (change_numa_node_state env env.numaMemSize env.memblockSize .offline
          ((set_gpu_numa_status env .offlineInProgress
            (emit w (.getInfo true))).2)).map (fun r => r.1) = some stc →
      stc < 0 →
      (offline_memory env w).map
          (fun r => (r.1, hasSetStatus r.2.trace .offlineFailed))
        = some (stc, true)) ∧
    (∀ (env : NumaEnv) (w : World) (stc : Int),
      env.infoOk = true → w.driverStatus = .online →
      env.setStatusOk .offlineInProgress = true →
      (change_numa_node_state env env.numaMemSize env.memblockSize .offline
          ((set_gpu_numa_status env .offlineInProgress
            (emit w (.getInfo true))).2)).map (fun r => r.1) = some stc →
      ¬ stc < 0 → env.setStatusOk .offline = true →
      (offline_memory env w).map (fun r => (r.1, r.2.driverStatus))
        = some (0, .offline)) := by
  refine ⟨?_, ?_, ?_, ?_⟩
  · intro env d w st hfd hmap hneg
    cases hom : offline_memory env w with
    | none => rw [hom] at hmap; cases hmap
    | some ro =>
        rw [hom] at hmap
        simp only [Option.map_some'] at hmap
        have h1 : ro.1 = st := by injection hmap
        rw [nvNumaOfflineMemory_some env d w ro hfd hom]
        rw [if_pos (by rw [h1]; exact hneg)]
        have := closeFd_offline_memory env w ro hom
        simp [this]
  · intro env d w st hfd hmap hneg
    cases hom : offline_memory env w with
    | none => rw [hom] at hmap; cases hmap
    | some ro =>
        rw [hom] at hmap
        simp only [Option.map_some'] at hmap
        have h1 : ro.1 = st := by injection hmap
        rw [nvNumaOfflineMemory_some env d w ro hfd hom]
        rw [if_neg (by rw [h1]; exact hneg)]
        have := closeFd_offline_memory env w ro hom
        constructor
        · rfl
        · simp [emit, countCloseFd, List.countP_append, this]
          simp [countCloseFd] at this
          omega
  · intro env w stc hio hdrv hset hmap hneg
    unfold offline_memory
    rw [hio]
    rw [if_neg (by norm_num)]
    have hemit : (emit w (.getInfo true)).driverStatus = .online := hdrv
    split
    · simp_all
    · simp_all
    · simp_all
    rw [if_neg (by
      rw [set_gpu_numa_status_fst_ok env .offlineInProgress _ hset]
      norm_num)]
    cases hchg : change_numa_node_state env env.numaMemSize env.memblockSize
        .offline (set_gpu_numa_status env .offlineInProgress
          (emit w (.getInfo true))).2 with
    | none => rw [hchg] at hmap; cases hmap
    | some rc =>
        rw [hchg] at hmap
        simp only [Option.map_some'] at hmap
        have h1 : rc.1 = stc := by injection hmap
        show Option.map
            (fun r => (r.1, hasSetStatus r.2.trace MemState.offlineFailed))
            (if rc.1 < 0 then
              some (rc.1, (set_gpu_numa_status env .offlineFailed rc.2).2)
            else if (set_gpu_numa_status env .offline rc.2).1 < 0 then
              some ((set_gpu_numa_status env .offline rc.2).1,
                (set_gpu_numa_status env .offline rc.2).2)
            else some (0, (set_gpu_numa_status env .offline rc.2).2))
          = some (stc, true)
        rw [if_pos (by rw [h1]; exact hneg)]
        simp only [Option.map_some']
        rw [h1]
        have := hasSetStatus_set_gpu_numa_status env .offlineFailed rc.2
        rw [this]
  · intro env w stc hio hdrv hset hmap hpos hset2
    unfold offline_memory
    rw [hio]
    rw [if_neg (by norm_num)]
    have hemit : (emit w (.getInfo true)).driverStatus = .online := hdrv
    split
    · simp_all
    · simp_all
    · simp_all
    rw [if_neg (by
      rw [set_gpu_numa_status_fst_ok env .offlineInProgress _ hset]
      norm_num)]
    cases hchg : change_numa_node_state env env.numaMemSize env.memblockSize
        .offline (set_gpu_numa_status env .offlineInProgress
          (emit w (.getInfo true))).2 with
    | none => rw [hchg] at hmap; cases hmap
    | some rc =>
        rw [hchg] at hmap
        simp only [Option.map_some'] at hmap
        have h1 : rc.1 = stc := by injection hmap
        show Option.map (fun r => (r.1, r.2.driverStatus))
            (if rc.1 < 0 then
              some (rc.1, (set_gpu_numa_status env .offlineFailed rc.2).2)
            else if (set_gpu_numa_status env .offline rc.2).1 < 0 then
              some ((set_gpu_numa_status env .offline rc.2).1,
                (set_gpu_numa_status env .offline rc.2).2)
            else some (0, (set_gpu_numa_status env .offline rc.2).2))
          = some (0, .offline)
        rw [if_neg (by rw [h1]; exact hpos)]
        rw [if_neg (by
          rw [set_gpu_numa_status_fst_ok env .offline _ hset2]
          norm_num)]
        simp only [Option.map_some']
        rw [set_gpu_numa_status_driver_ok env .offline _ hset2]

/-- C6 witness: with the single-block node `memory7`, region of four
blocks, and every block-state write failing, `offline_memory` reports -5
and `nvNumaOfflineMemory` on a device holding fd 3 returns NumaFailure
with the device record unchanged and no descriptor close. -/
theorem c6_offline_failure_handling_witness :
    (0 : Int) ≤ 3 ∧
    (nvNumaOfflineMemory envC6w { fd := 3 } wOnAll).map
        (fun r => (r.1, r.2.1))
      = some (.errNumaFailure, ({ fd := 3 } : NvNumaDevice)) ∧
    (nvNumaOfflineMemory envC6w { fd := 3 } wOnAll).map
        (fun r => countCloseFd r.2.2.trace)
      = some (countCloseFd wOnAll.trace) := by
  have h := c6_offline_failure_handling.1 envC6w { fd := 3 } wOnAll (-5)
    (by norm_num) rfl (by norm_num)
  exact ⟨by norm_num, h.1, h.2⟩

lemma replaceFirst_self :
    ∀ (devs : List NvPdDevice) (domain bus slot : Int) (d : NvPdDevice),
      get_device devs domain bus slot = some d →
      replaceFirst devs domain bus slot d = devs := by
  intro devs
  induction devs with
  | nil => intro _ _ _ _ h; cases h
  | cons x rest ih =>
      intro domain bus slot d h
      unfold get_device at h
      unfold replaceFirst
      by_cases hc : x.domain = domain ∧ x.bus = bus ∧ x.slot = slot
      · rw [if_pos hc] at h
        rw [if_pos hc]
        injection h with h
        rw [h]
      · rw [if_neg hc] at h
        rw [if_neg hc]
        rw [ih domain bus slot d h]

/-- C9 counterexample: a device with no stored descriptor (fd -1) whose
recorded NUMA status is already Offline: `SetNumaStatus(..., Offline)`
returns SUCCESS via the no-op path (with no kernel operation at all),
not the claimed descriptor-unavailable failure. -/
theorem c9_counterexample :
    (nvPdSetDeviceNumaStatus baseEnv [devDisabledOffline] 0 1 0 0
        .offline w0).map (fun r => (r.1, r.2.1, r.2.2.trace))
      = some (.success, [devDisabledOffline], []) := by
  rfl

/-- C9 (amended): a `SetNumaStatus(..., Offline)` request on a device
whose stored NUMA fd is -1 AND whose recorded status is Online (so the
request is not a no-op) fails with NumaFailure, leaving the registry and
the kernel world (in particular its trace: no ioctl is attempted)
completely unchanged. -/
theorem c9_offline_unattached (nenv : NumaEnv) (devs : List NvPdDevice)
    (domain bus slot f : Int) (d : NvPdDevice) (w : World)
    (hget : get_device devs domain bus slot = some d)
    (hfd : d.fd < 0) (hst : d.numa_status = .online) :
    nvPdSetDeviceNumaStatus nenv devs domain bus slot f .offline w
      = some (.errNumaFailure, devs, w) := by
  have hsdns : set_device_numa_status nenv d .offline w
      = some (.errNumaFailure, d, w) := by
    unfold set_device_numa_status
    rw [if_neg (by rw [hst]; intro hc; cases hc)]
    show (match nvNumaOfflineMemory nenv { fd := d.fd } w with
      | none => none
      | some r =>
        if r.1 = NvPdStatus.success then
          some (NvPdStatus.success,
            { { d with fd := r.2.1.fd } with
                numa_status := NvNumaStatus.offline }, r.2.2)
        else some (r.1, { d with fd := r.2.1.fd }, r.2.2))
      = some (.errNumaFailure, d, w)
    have hrun : nvNumaOfflineMemory nenv { fd := d.fd } w
        = some (.errNumaFailure, { fd := d.fd }, w) := by
      unfold nvNumaOfflineMemory
      rw [if_pos hfd]
    rw [hrun]
    rfl
  unfold nvPdSetDeviceNumaStatus
  rw [hget]
  show (match set_device_numa_status nenv d .offline w with
    | none => none
    | some r =>
        some (r.1, replaceFirst devs domain bus slot r.2.1, r.2.2))
    = some (.errNumaFailure, devs, w)
  rw [hsdns]
  show some (NvPdStatus.errNumaFailure,
      replaceFirst devs domain bus slot d, w)
    = some (.errNumaFailure, devs, w)
  rw [replaceFirst_self devs domain bus slot d hget]

/-- C9 witness: the concrete Enabled device recorded Online with fd -1:
the Offline request fails with NumaFailure and changes nothing. -/
theorem c9_offline_unattached_witness :
    nvPdSetDeviceNumaStatus baseEnv [devOnlineNoFd] 0 1 0 0 .offline w0
      = some (.errNumaFailure, [devOnlineNoFd], w0) :=
  c9_offline_unattached baseEnv [devOnlineNoFd] 0 1 0 0 devOnlineNoFd w0
    rfl (by unfold devOnlineNoFd; norm_num) rfl

lemma set_device_mode_preserves (cenv : CfgEnv) (d : NvPdDevice)
    (mode : NvPersistenceMode) (w : World) :
    (set_device_mode cenv d mode w).2.1.numa_status = d.numa_status ∧
    (set_device_mode cenv d mode w).2.1.fd = d.fd ∧
    (set_device_mode cenv d mode w).2.1.domain = d.domain ∧
    (set_device_mode cenv d mode w).2.1.bus = d.bus ∧
    (set_device_mode cenv d mode w).2.1.slot = d.slot := by
  unfold set_device_mode
  by_cases h : mode = d.mode
  · simp [h]
  · rw [if_neg h]
    cases mode
    · by_cases hc : cenv.closeOk <;> simp [hc]
    · by_cases hc : cenv.openOk <;> simp [hc]

lemma set_device_mode_success_mode (cenv : CfgEnv) (d : NvPdDevice)
    (mode : NvPersistenceMode) (w : World)
    (h : (set_device_mode cenv d mode w).1 = .success) :
    (set_device_mode cenv d mode w).2.1.mode = mode := by
  revert h
  unfold set_device_mode
  by_cases h : mode = d.mode
  · rw [if_pos h]
    intro _
    exact h.symm
  · rw [if_neg h]
    cases mode
    · by_cases hc : cenv.closeOk <;> simp [hc]
    · by_cases hc : cenv.openOk <;> simp [hc]

lemma set_device_mode_fail (cenv : CfgEnv) (d : NvPdDevice)
    (mode : NvPersistenceMode) (w : World)
    (h : ¬ (set_device_mode cenv d mode w).1 = .success) :
    (set_device_mode cenv d mode w).2.1 = d := by
  revert h
  unfold set_device_mode
  by_cases h : mode = d.mode
  · rw [if_pos h]
    intro hc
    exact absurd rfl hc
  · rw [if_neg h]
    cases mode
    · by_cases hc : cenv.closeOk <;> simp [hc]
    · by_cases hc : cenv.openOk <;> simp [hc]

lemma set_device_mode_enabled_open (cenv : CfgEnv) (d : NvPdDevice)
    (w : World) (hopen : cenv.openOk = true) :
    (set_device_mode cenv d .enabled w).2.1.mode = .enabled := by
  unfold set_device_mode
  by_cases h : NvPersistenceMode.enabled = d.mode
  · rw [if_pos h]
    exact h.symm
  · rw [if_neg h]
    simp [hopen]

lemma set_device_mode_disabled_cases (cenv : CfgEnv) (d : NvPdDevice)
    (w : World) :
    (set_device_mode cenv d .disabled w).2.1.mode = .disabled ∨
    (set_device_mode cenv d .disabled w).2.1 = d := by
  unfold set_device_mode
  by_cases h : NvPersistenceMode.disabled = d.mode
  · rw [if_pos h]
    exact Or.inl h.symm
  · rw [if_neg h]
    by_cases hc : cenv.closeOk <;> simp [hc]

lemma sdns_run_some (nenv : NumaEnv) (d : NvPdDevice) (t : NvNumaStatus)
    (w : World) (rr : NvPdStatus × NvNumaDevice × World)
    (hrun : (match t with
             | NvNumaStatus.offline => nvNumaOfflineMemory nenv { fd := d.fd } w
             | NvNumaStatus.online => nvNumaOnlineMemory nenv { fd := d.fd } w)
        = some rr)
    (hno : ¬ t = d.numa_status) :
    set_device_numa_status nenv d t w
      = (if rr.1 = .success then
          some (.success, { { d with fd := rr.2.1.fd } with
            numa_status := t }, rr.2.2)
        else some (rr.1, { d with fd := rr.2.1.fd }, rr.2.2)) := by
  unfold set_device_numa_status
  rw [if_neg hno, hrun]

lemma sdns_run_none (nenv : NumaEnv) (d : NvPdDevice) (t : NvNumaStatus)
    (w : World)
    (hrun : (match t with
             | NvNumaStatus.offline => nvNumaOfflineMemory nenv { fd := d.fd } w
             | NvNumaStatus.online => nvNumaOnlineMemory nenv { fd := d.fd } w)
        = none)
    (hno : ¬ t = d.numa_status) :
    set_device_numa_status nenv d t w = none := by
  unfold set_device_numa_status
  rw [if_neg hno, hrun]

lemma sdns_preserves (nenv : NumaEnv) (d : NvPdDevice) (t : NvNumaStatus)
    (w : World) (r : NvPdStatus × NvPdDevice × World)
    (h : set_device_numa_status nenv d t w = some r) :
    r.2.1.mode = d.mode ∧ r.2.1.handle = d.handle ∧
    r.2.1.domain = d.domain ∧ r.2.1.bus = d.bus ∧ r.2.1.slot = d.slot ∧
    r.2.1.numa_status = (if r.1 = .success then t else d.numa_status) := by
  by_cases hno : t = d.numa_status
  · unfold set_device_numa_status at h
    rw [if_pos hno] at h
    cases h
    simp [hno]
  · cases hrun : (match t with
        | NvNumaStatus.offline => nvNumaOfflineMemory nenv { fd := d.fd } w
        | NvNumaStatus.online => nvNumaOnlineMemory nenv { fd := d.fd } w) with
    | none =>
        rw [sdns_run_none nenv d t w hrun hno] at h
        cases h
    | some rr =>
        rw [sdns_run_some nenv d t w rr hrun hno] at h
        by_cases hs : rr.1 = .success
        · rw [if_pos hs] at h
          cases h
          simp [hs]
        · rw [if_neg hs] at h
          cases h
          simp [hs]

lemma spmd_eq (cenv : CfgEnv) (nenv : NumaEnv) (d : NvPdDevice)
    (mode : NvPersistenceMode) (w : World)
    (h1 : (set_device_mode cenv d mode w).1 = .success) :
    setPersistenceModeDevice cenv nenv d mode w
      = (match set_device_numa_status nenv (set_device_mode cenv d mode w).2.1
            (derivedNumaTarget mode) (set_device_mode cenv d mode w).2.2 with
         | none => none
         | some r2 =>
            if r2.1 ≠ .success ∧ d.mode ≠ mode then
              some (r2.1,
                (set_device_mode cenv r2.2.1 d.mode r2.2.2).2.1,
                (set_device_mode cenv r2.2.1 d.mode r2.2.2).2.2)
            else some r2) := by
  unfold setPersistenceModeDevice
  rw [if_pos h1]

lemma spmd_eq_fail (cenv : CfgEnv) (nenv : NumaEnv) (d : NvPdDevice)
    (mode : NvPersistenceMode) (w : World)
    (h1 : ¬ (set_device_mode cenv d mode w).1 = .success) :
    setPersistenceModeDevice cenv nenv d mode w
      = some (set_device_mode cenv d mode w) := by
  unfold setPersistenceModeDevice
  rw [if_neg h1]

lemma get_device_mem :
    ∀ (devs : List NvPdDevice) (domain bus slot : Int) (d : NvPdDevice),
      get_device devs domain bus slot = some d → d ∈ devs := by
  intro devs
  induction devs with
  | nil => intro _ _ _ _ h; cases h
  | cons x rest ih =>
      intro domain bus slot d h
      unfold get_device at h
      by_cases hc : x.domain = domain ∧ x.bus = bus ∧ x.slot = slot
      · rw [if_pos hc] at h
        injection h with h
        exact h ▸ List.mem_cons_self x rest
      · rw [if_neg hc] at h
        exact List.mem_cons_of_mem x (ih domain bus slot d h)

lemma get_device_key :
    ∀ (devs : List NvPdDevice) (domain bus slot : Int) (d : NvPdDevice),
      get_device devs domain bus slot = some d →
      d.domain = domain ∧ d.bus = bus ∧ d.slot = slot := by
  intro devs
  induction devs with
  | nil => intro _ _ _ _ h; cases h
  | cons x rest ih =>
      intro domain bus slot d h
      unfold get_device at h
      by_cases hc : x.domain = domain ∧ x.bus = bus ∧ x.slot = slot
      · rw [if_pos hc] at h
        injection h with h
        exact h ▸ hc
      · rw [if_neg hc] at h
        exact ih domain bus slot d h

lemma get_device_replaceFirst :
    ∀ (devs : List NvPdDevice) (domain bus slot : Int) (d d' : NvPdDevice),
      get_device devs domain bus slot = some d →
      d'.domain = domain → d'.bus = bus → d'.slot = slot →
      get_device (replaceFirst devs domain bus slot d') domain bus slot
        = some d' := by
  intro devs
  induction devs with
  | nil => intro _ _ _ _ _ h; cases h
  | cons x rest ih =>
      intro domain bus slot d d' h h1 h2 h3
      unfold get_device at h
      unfold replaceFirst
      by_cases hc : x.domain = domain ∧ x.bus = bus ∧ x.slot = slot
      · rw [if_pos hc]
        unfold get_device
        rw [if_pos ⟨h1, h2, h3⟩]
      · rw [if_neg hc]
        unfold get_device
        rw [if_neg hc]
        rw [if_neg hc] at h
        exact ih domain bus slot d d' h h1 h2 h3

lemma mem_replaceFirst :
    ∀ (devs : List NvPdDevice) (domain bus slot : Int) (d' x : NvPdDevice),
      x ∈ replaceFirst devs domain bus slot d' → x = d' ∨ x ∈ devs := by
  intro devs
  induction devs with
  | nil => intro _ _ _ _ x h; cases h
  | cons y rest ih =>
      intro domain bus slot d' x h
      unfold replaceFirst at h
      by_cases hc : y.domain = domain ∧ y.bus = bus ∧ y.slot = slot
      · rw [if_pos hc] at h
        rcases List.mem_cons.mp h with h | h
        · exact Or.inl h
        · exact Or.inr (List.mem_cons_of_mem y h)
      · rw [if_neg hc] at h
        rcases List.mem_cons.mp h with h | h
        · exact Or.inr (h ▸ List.mem_cons_self y rest)
        · rcases ih domain bus slot d' x h with h | h
          · exact Or.inl h
          · exact Or.inr (List.mem_cons_of_mem y h)

/-- C4: in `nvPdSetDevicePersistenceMode`'s device-level body, when the
attachment transition succeeds with an actual mode change and the derived
NUMA transition (Enabled maps to Online, Disabled to Offline) then fails,
the attachment mode is rolled back by a further `set_device_mode` to the
prior value — whose own failure is discarded, the NUMA error being what
is returned — and if the rollback's libnvidia-cfg call succeeds the
device mode equals its prior value; when the NUMA step succeeds no
rollback happens and its result is returned unchanged. -/
theorem c4_mode_then_numa_rollback :
    (∀ (cenv : CfgEnv) (nenv : NumaEnv) (d : NvPdDevice)
       (mode : NvPersistenceMode) (w : World) (d1 : NvPdDevice) (w1 : World)
       (st2 : NvPdStatus) (d2 : NvPdDevice) (w2 : World),
      set_device_mode cenv d mode w = (.success, d1, w1) →
      set_device_numa_status nenv d1 (derivedNumaTarget mode) w1
        = some (st2, d2, w2) →
      st2 ≠ .success → d.mode ≠ mode →
      setPersistenceModeDevice cenv nenv d mode w
        = some (st2, (set_device_mode cenv d2 d.mode w2).2.1,
            (set_device_mode cenv d2 d.mode w2).2.2) ∧
      ((set_device_mode cenv d2 d.mode w2).1 = .success →
        (set_device_mode cenv d2 d.mode w2).2.1.mode = d.mode)) ∧
    (∀ (cenv : CfgEnv) (nenv : NumaEnv) (d : NvPdDevice)
       (mode : NvPersistenceMode) (w : World) (d1 : NvPdDevice) (w1 : World)
       (d2 : NvPdDevice) (w2 : World),
      set_device_mode cenv d mode w = (.success, d1, w1) →
      set_device_numa_status nenv d1 (derivedNumaTarget mode) w1
        = some (.success, d2, w2) →
      setPersistenceModeDevice cenv nenv d mode w
        = some (.success, d2, w2)) := by
  constructor
  · intro cenv nenv d mode w d1 w1 st2 d2 w2 hmode hnuma hfail hchange
    have e1 : (set_device_mode cenv d mode w).2.1 = d1 := by rw [hmode]
    have e2 : (set_device_mode cenv d mode w).2.2 = w1 := by rw [hmode]
    rw [spmd_eq cenv nenv d mode w (by rw [hmode]), e1, e2, hnuma]
    show (if st2 ≠ .success ∧ d.mode ≠ mode then
        some (st2, (set_device_mode cenv d2 d.mode w2).2.1,
          (set_device_mode cenv d2 d.mode w2).2.2)
      else some (st2, d2, w2))
      = some (st2, (set_device_mode cenv d2 d.mode w2).2.1,
          (set_device_mode cenv d2 d.mode w2).2.2) ∧
      ((set_device_mode cenv d2 d.mode w2).1 = .success →
        (set_device_mode cenv d2 d.mode w2).2.1.mode = d.mode)
    refine ⟨by rw [if_pos ⟨hfail, hchange⟩], ?_⟩
    exact set_device_mode_success_mode cenv d2 d.mode w2
  · intro cenv nenv d mode w d1 w1 d2 w2 hmode hnuma
    have e1 : (set_device_mode cenv d mode w).2.1 = d1 := by rw [hmode]
    have e2 : (set_device_mode cenv d mode w).2.2 = w1 := by rw [hmode]
    rw [spmd_eq cenv nenv d mode w (by rw [hmode]), e1, e2, hnuma]
    show (if NvPdStatus.success ≠ NvPdStatus.success ∧ d.mode ≠ mode then
        some (NvPdStatus.success, (set_device_mode cenv d2 d.mode w2).2.1,
          (set_device_mode cenv d2 d.mode w2).2.2)
      else some (.success, d2, w2))
      = some (.success, d2, w2)
    rw [if_neg (by simp)]

/-- C4 witness: Enabled device recorded Online but with no stored fd;
requesting Disabled closes the device (mode change), the derived Offline
transition fails at once (fd -1), and the attachment rollback re-opens
the device: the call returns the NUMA error and the rollback restores
mode Enabled. -/
theorem c4_mode_then_numa_rollback_witness :
    setPersistenceModeDevice cenvOk baseEnv devOnlineNoFd .disabled w0
      = some (.errNumaFailure,
          (set_device_mode cenvOk
            { devOnlineNoFd with handle := false, mode := .disabled }
            devOnlineNoFd.mode
            { w0 with trace := [.cfgClose true] }).2.1,
          (set_device_mode cenvOk
            { devOnlineNoFd with handle := false, mode := .disabled }
            devOnlineNoFd.mode
            { w0 with trace := [.cfgClose true] }).2.2) ∧
    ((set_device_mode cenvOk
        { devOnlineNoFd with handle := false, mode := .disabled }
        devOnlineNoFd.mode
        { w0 with trace := [.cfgClose true] }).1 = .success →
      (set_device_mode cenvOk
        { devOnlineNoFd with handle := false, mode := .disabled }
        devOnlineNoFd.mode
        { w0 with trace := [.cfgClose true] }).2.1.mode
        = devOnlineNoFd.mode) :=
  c4_mode_then_numa_rollback.1 cenvOk baseEnv devOnlineNoFd .disabled w0
    { devOnlineNoFd with handle := false, mode := .disabled }
    { w0 with trace := [.cfgClose true] } .errNumaFailure
    { devOnlineNoFd with handle := false, mode := .disabled }
    { w0 with trace := [.cfgClose true] }
    rfl rfl (by simp) (by simp [devOnlineNoFd])

lemma replaceFirst_idem :
    ∀ (devs : List NvPdDevice) (domain bus slot : Int) (d' : NvPdDevice),
      d'.domain = domain → d'.bus = bus → d'.slot = slot →
      replaceFirst (replaceFirst devs domain bus slot d') domain bus slot d'
        = replaceFirst devs domain bus slot d' := by
  intro devs
  induction devs with
  | nil => intro _ _ _ _ _ _ _; rfl
  | cons x rest ih =>
      intro domain bus slot d' h1 h2 h3
      by_cases hc : x.domain = domain ∧ x.bus = bus ∧ x.slot = slot
      · have e1 : replaceFirst (x :: rest) domain bus slot d' = d' :: rest := by
          unfold replaceFirst
          rw [if_pos hc]
        rw [e1]
        unfold replaceFirst
        rw [if_pos ⟨h1, h2, h3⟩]
      · have e1 : replaceFirst (x :: rest) domain bus slot d'
            = x :: replaceFirst rest domain bus slot d' := by
          simp only [replaceFirst]
          rw [if_neg hc]
        rw [e1]
        have e2 : replaceFirst (x :: replaceFirst rest domain bus slot d')
              domain bus slot d'
            = x :: replaceFirst (replaceFirst rest domain bus slot d')
                domain bus slot d' := by
          simp only [replaceFirst]
          rw [if_neg hc]
        rw [e2, ih domain bus slot d' h1 h2 h3]

lemma nvpd_some (cenv : CfgEnv) (nenv : NumaEnv) (devs : List NvPdDevice)
    (domain bus slot f : Int) (mode : NvPersistenceMode) (w : World)
    (d : NvPdDevice) (hget : get_device devs domain bus slot = some d) :
    nvPdSetDevicePersistenceMode cenv nenv devs domain bus slot f mode w
      = (match setPersistenceModeDevice cenv nenv d mode w with
         | none => none
         | some r =>
            some (r.1, replaceFirst devs domain bus slot r.2.1, r.2.2)) := by
  unfold nvPdSetDevicePersistenceMode
  rw [hget]

lemma spmd_noop (cenv : CfgEnv) (nenv : NumaEnv) (d : NvPdDevice)
    (mode : NvPersistenceMode) (w : World)
    (hm : mode = d.mode) (hn : derivedNumaTarget mode = d.numa_status) :
    setPersistenceModeDevice cenv nenv d mode w = some (.success, d, w) := by
  have h1 : set_device_mode cenv d mode w = (.success, d, w) := by
    unfold set_device_mode
    rw [if_pos hm]
  have h2 : set_device_numa_status nenv d (derivedNumaTarget mode) w
      = some (.success, d, w) := by
    unfold set_device_numa_status
    rw [if_pos hn]
  rw [spmd_eq cenv nenv d mode w (by rw [h1]), h1]
  show (match set_device_numa_status nenv d (derivedNumaTarget mode) w with
        | none => none
        | some r2 =>
          if r2.1 ≠ .success ∧ d.mode ≠ mode then
            some (r2.1, (set_device_mode cenv r2.2.1 d.mode r2.2.2).2.1,
              (set_device_mode cenv r2.2.1 d.mode r2.2.2).2.2)
          else some r2)
      = some (.success, d, w)
  rw [h2]
  show (if NvPdStatus.success ≠ NvPdStatus.success ∧ d.mode ≠ mode then
          some (NvPdStatus.success,
            (set_device_mode cenv d d.mode w).2.1,
            (set_device_mode cenv d d.mode w).2.2)
        else some (NvPdStatus.success, d, w))
      = some (NvPdStatus.success, d, w)
  rw [if_neg (by simp)]

lemma spmd_success_state (cenv : CfgEnv) (nenv : NumaEnv) (d : NvPdDevice)
    (mode : NvPersistenceMode) (w : World)
    (r : NvPdStatus × NvPdDevice × World)
    (h : setPersistenceModeDevice cenv nenv d mode w = some r)
    (hs : r.1 = .success) :
    r.2.1.mode = mode ∧ r.2.1.numa_status = derivedNumaTarget mode ∧
    r.2.1.domain = d.domain ∧ r.2.1.bus = d.bus ∧ r.2.1.slot = d.slot := by
  by_cases h1 : (set_device_mode cenv d mode w).1 = .success
  · rw [spmd_eq cenv nenv d mode w h1] at h
    cases hnuma : set_device_numa_status nenv
        (set_device_mode cenv d mode w).2.1 (derivedNumaTarget mode)
        (set_device_mode cenv d mode w).2.2 with
    | none =>
        rw [hnuma] at h
        exact Option.noConfusion h
    | some r2 =>
        rw [hnuma] at h
        have h' : (if r2.1 ≠ .success ∧ d.mode ≠ mode then
              some (r2.1,
                (set_device_mode cenv r2.2.1 d.mode r2.2.2).2.1,
                (set_device_mode cenv r2.2.1 d.mode r2.2.2).2.2)
            else some r2) = some r := h
        by_cases hcond : r2.1 ≠ .success ∧ d.mode ≠ mode
        · rw [if_pos hcond] at h'
          injection h' with h''
          exact absurd ((congrArg Prod.fst h'').trans hs) hcond.1
        · rw [if_neg hcond] at h'
          injection h' with h''
          subst h''
          have hp := sdns_preserves nenv (set_device_mode cenv d mode w).2.1
            (derivedNumaTarget mode) (set_device_mode cenv d mode w).2.2 r2 hnuma
          have hm := set_device_mode_success_mode cenv d mode w h1
          have hpr := set_device_mode_preserves cenv d mode w
          refine ⟨hp.1.trans hm, ?_, hp.2.2.1.trans hpr.2.2.1,
            hp.2.2.2.1.trans hpr.2.2.2.1, hp.2.2.2.2.1.trans hpr.2.2.2.2⟩
          rw [hp.2.2.2.2.2, if_pos hs]
  · rw [spmd_eq_fail cenv nenv d mode w h1] at h
    injection h with h''
    exact absurd (by rw [h'']; exact hs) h1

/-- C8: a successful `SetPersistenceMode` is idempotent, and the repeated
identical request is a strict no-op: given that the first call returned
success with registry `devs1` and world `w1`, the same call against
`devs1`/`w1` again returns success with exactly `devs1` and `w1` — the
world (hence the event trace) is unchanged, so neither libnvidia-cfg nor
the NUMA online/offline machinery is re-invoked. -/
theorem c8_idempotent_no_op (cenv : CfgEnv) (nenv : NumaEnv)
    (devs : List NvPdDevice) (domain bus slot f : Int)
    (mode : NvPersistenceMode) (w : World)
    (devs1 : List NvPdDevice) (w1 : World)
    (h : nvPdSetDevicePersistenceMode cenv nenv devs domain bus slot f mode w
        = some (.success, devs1, w1)) :
    nvPdSetDevicePersistenceMode cenv nenv devs1 domain bus slot f mode w1
      = some (.success, devs1, w1) := by
  cases hget : get_device devs domain bus slot with
  | none =>
      unfold nvPdSetDevicePersistenceMode at h
      rw [hget] at h
      have h' : some ((NvPdStatus.errDeviceNotFound : NvPdStatus), devs, w)
          = some ((NvPdStatus.success : NvPdStatus), devs1, w1) := h
      injection h' with h''
      exact NvPdStatus.noConfusion (congrArg Prod.fst h'')
  | some d =>
      rw [nvpd_some cenv nenv devs domain bus slot f mode w d hget] at h
      cases hsp : setPersistenceModeDevice cenv nenv d mode w with
      | none =>
          rw [hsp] at h
          exact Option.noConfusion h
      | some r =>
          rw [hsp] at h
          have h' : some (r.1, replaceFirst devs domain bus slot r.2.1, r.2.2)
              = some ((NvPdStatus.success : NvPdStatus), devs1, w1) := h
          injection h' with h''
          have hst : r.1 = .success := congrArg Prod.fst h''
          have hdevs : replaceFirst devs domain bus slot r.2.1 = devs1 :=
            congrArg (fun p => p.2.1) h''
          have hw : r.2.2 = w1 := congrArg (fun p => p.2.2) h''
          have hkey := get_device_key devs domain bus slot d hget
          have hstate := spmd_success_state cenv nenv d mode w r hsp hst
          have k1 : r.2.1.domain = domain := hstate.2.2.1.trans hkey.1
          have k2 : r.2.1.bus = bus := hstate.2.2.2.1.trans hkey.2.1
          have k3 : r.2.1.slot = slot := hstate.2.2.2.2.trans hkey.2.2
          have hget2 : get_device devs1 domain bus slot = some r.2.1 := by
            rw [← hdevs]
            exact get_device_replaceFirst devs domain bus slot d r.2.1
              hget k1 k2 k3
          rw [nvpd_some cenv nenv devs1 domain bus slot f mode w1 r.2.1 hget2]
          rw [spmd_noop cenv nenv r.2.1 mode w1 hstate.1.symm hstate.2.1.symm]
          show some ((NvPdStatus.success : NvPdStatus),
              replaceFirst devs1 domain bus slot r.2.1, w1)
            = some ((NvPdStatus.success : NvPdStatus), devs1, w1)
          rw [← hdevs, replaceFirst_idem devs domain bus slot r.2.1 k1 k2 k3]

/-- C8 witness: enabling the Disabled/Offline device at 0000:01:00 with a
driver already reporting Online succeeds on the first call (opening the
device and querying NUMA info); the identical second call returns the
same registry and the same world, its trace still the three events of the
first call. -/
theorem c8_idempotent_no_op_witness :
    nvPdSetDevicePersistenceMode cenvOk baseEnv [devEnabledOnline] 0 1 0 0
        .enabled
        { wDrvOn with trace := [.cfgOpen true, .openDev true, .getInfo true] }
      = some (.success, [devEnabledOnline],
          { wDrvOn with
              trace := [.cfgOpen true, .openDev true, .getInfo true] }) :=
  c8_idempotent_no_op cenvOk baseEnv [devDisabledOffline] 0 1 0 0 .enabled
    wDrvOn [devEnabledOnline]
    { wDrvOn with trace := [.cfgOpen true, .openDev true, .getInfo true] }
    rfl

lemma spmd_inv (cenv : CfgEnv) (nenv : NumaEnv) (d : NvPdDevice)
    (mode : NvPersistenceMode) (w : World)
    (r : NvPdStatus × NvPdDevice × World)
    (hopen : cenv.openOk = true)
    (hd : d.numa_status = .online → d.mode = .enabled)
    (h : setPersistenceModeDevice cenv nenv d mode w = some r) :
    r.2.1.numa_status = .online → r.2.1.mode = .enabled := by
  by_cases h1 : (set_device_mode cenv d mode w).1 = .success
  · rw [spmd_eq cenv nenv d mode w h1] at h
    cases hnuma : set_device_numa_status nenv
        (set_device_mode cenv d mode w).2.1 (derivedNumaTarget mode)
        (set_device_mode cenv d mode w).2.2 with
    | none =>
        rw [hnuma] at h
        exact Option.noConfusion h
    | some r2 =>
        rw [hnuma] at h
        have h' : (if r2.1 ≠ .success ∧ d.mode ≠ mode then
              some (r2.1,
                (set_device_mode cenv r2.2.1 d.mode r2.2.2).2.1,
                (set_device_mode cenv r2.2.1 d.mode r2.2.2).2.2)
            else some r2) = some r := h
        have hp := sdns_preserves nenv (set_device_mode cenv d mode w).2.1
          (derivedNumaTarget mode) (set_device_mode cenv d mode w).2.2 r2 hnuma
        have hm := set_device_mode_success_mode cenv d mode w h1
        have hpr := set_device_mode_preserves cenv d mode w
        by_cases hcond : r2.1 ≠ .success ∧ d.mode ≠ mode
        · rw [if_pos hcond] at h'
          injection h' with h''
          have hr21 : r.2.1 = (set_device_mode cenv r2.2.1 d.mode r2.2.2).2.1 :=
            (congrArg (fun p => p.2.1) h'').symm
          rw [hr21]
          have hrn : (set_device_mode cenv r2.2.1 d.mode r2.2.2).2.1.numa_status
              = d.numa_status := by
            rw [(set_device_mode_preserves cenv r2.2.1 d.mode r2.2.2).1,
              hp.2.2.2.2.2, if_neg hcond.1, hpr.1]
          intro hon
          have hdm : d.mode = .enabled := hd (hrn ▸ hon)
          rw [hdm]
          exact set_device_mode_enabled_open cenv r2.2.1 r2.2.2 hopen
        · rw [if_neg hcond] at h'
          injection h' with h''
          subst h''
          intro hon
          have hmode : r2.2.1.mode = mode := hp.1.trans hm
          by_cases hs : r2.1 = .success
          · have ht : r2.2.1.numa_status = derivedNumaTarget mode := by
              rw [hp.2.2.2.2.2, if_pos hs]
            rw [hmode]
            cases mode
            · exact NvNumaStatus.noConfusion (ht.symm.trans hon)
            · rfl
          · have hdm : d.mode = mode := by
              by_contra hne
              exact hcond ⟨hs, hne⟩
            have ht : r2.2.1.numa_status = d.numa_status := by
              rw [hp.2.2.2.2.2, if_neg hs, hpr.1]
            rw [hmode, ← hdm]
            exact hd (ht ▸ hon)
  · rw [spmd_eq_fail cenv nenv d mode w h1] at h
    injection h with h''
    have hr : r.2.1 = d := by
      rw [← h'']
      exact set_device_mode_fail cenv d mode w h1
    rw [hr]
    exact hd

/-- C1 counterexample: the registry holding the single Enabled device with
its NUMA memory Online satisfies the invariant, yet
`SetPersistenceModeOnly(Disabled)` on it returns success and leaves the
device with mode Disabled while its numa_status is still Online — the
invariant is observably violated right after a command returns. -/
theorem c1_counterexample :
    registryInv [devEnabledOnline] ∧
    (nvPdSetDevicePersistenceModeOnly cenvOk [devEnabledOnline] 0 1 0 0
        .disabled w0).1 = .success ∧
    ¬ registryInv (nvPdSetDevicePersistenceModeOnly cenvOk [devEnabledOnline]
        0 1 0 0 .disabled w0).2.1 := by
  refine ⟨by decide, rfl, ?_⟩
  decide

/-- C1 (amended): on a registry satisfying `numa_status = Online implies
mode = Enabled`, the combined `SetPersistenceMode` command preserves the
invariant whenever the libnvidia-cfg attachment open succeeds (so that
the best-effort mode rollback of a failed NUMA step can re-enable the
device), and `GetPersistenceMode` preserves it unconditionally;
`SetPersistenceModeOnly` and `SetNumaStatus` do not preserve it. -/
theorem c1_invariant_preservation (cenv : CfgEnv) (nenv : NumaEnv)
    (devs : List NvPdDevice) (domain bus slot f : Int)
    (mode : NvPersistenceMode) (w : World)
    (hopen : cenv.openOk = true) (hinv : registryInv devs) :
    registryInv (((nvPdSetDevicePersistenceMode cenv nenv devs domain bus slot
        f mode w).map (fun r => r.2.1)).getD []) ∧
    registryInv (nvPdGetDevicePersistenceMode devs domain bus slot f w).2.2.1 := by
  constructor
  · cases hget : get_device devs domain bus slot with
    | none =>
        unfold nvPdSetDevicePersistenceMode
        rw [hget]
        exact hinv
    | some d =>
        rw [nvpd_some cenv nenv devs domain bus slot f mode w d hget]
        cases hsp : setPersistenceModeDevice cenv nenv d mode w with
        | none =>
            intro x hx
            exact absurd hx (List.not_mem_nil x)
        | some r =>
            show registryInv (replaceFirst devs domain bus slot r.2.1)
            intro x hx hxon
            rcases mem_replaceFirst devs domain bus slot r.2.1 x hx with hx1 | hx2
            · rw [hx1] at hxon ⊢
              exact spmd_inv cenv nenv d mode w r hopen
                (hinv d (get_device_mem devs domain bus slot d hget)) hsp hxon
            · exact hinv x hx2 hxon
  · cases hget : get_device devs domain bus slot with
    | none =>
        unfold nvPdGetDevicePersistenceMode
        rw [hget]
        exact hinv
    | some d =>
        unfold nvPdGetDevicePersistenceMode
        rw [hget]
        exact hinv

/-- C1 witness: a no-op Disabled request on the Disabled/Offline registry
preserves the invariant, as does reading the mode back. -/
theorem c1_invariant_preservation_witness :
    registryInv (((nvPdSetDevicePersistenceMode cenvOk baseEnv
        [devDisabledOffline] 0 1 0 0 .disabled w0).map
        (fun r => r.2.1)).getD []) ∧
    registryInv (nvPdGetDevicePersistenceMode [devDisabledOffline]
        0 1 0 0 w0).2.2.1 :=
  c1_invariant_preservation cenvOk baseEnv [devDisabledOffline] 0 1 0 0
    .disabled w0 rfl (by decide)
